import Mathlib

/-!
# Verification of the karmada resource detector (`pkg/detector/detector.go`)

A shallow embedding of the detector's matching / claiming / binding engine.
Go maps of labels and annotations are modelled as association lists with
key-based lookup, insertion and removal; Go's `m[k]` read (returning the
empty string for a missing key) is `getVal`.  Fallible Go calls return
`Except String _`.  External I/O (typed client, dynamic client, listers,
the resource interpreter) is supplied through explicit environment records
so that every function stays pure and executable.
-/

/-- Association-list model of a Go `map[string]string`. -/
abbrev LabelMap := List (String × String)

/-- Lookup of a key in a label map (Go: `v, ok := m[k]`). -/
def lookupKey : LabelMap → String → Option String
  | [], _ => none
  | kv :: rest, k => if kv.1 = k then some kv.2 else lookupKey rest k

/-- Go map read `m[k]`, which yields `""` when the key is absent. -/
def getVal (m : LabelMap) (k : String) : String :=
  (lookupKey m k).getD ""

/-- Go map write `m[k] = v` (replaces an existing entry for `k`). -/
def setKey : LabelMap → String → String → LabelMap
  | [], k, v => [(k, v)]
  | kv :: rest, k, v => if kv.1 = k then (k, v) :: rest else kv :: setKey rest k v

/-- Go `delete(m, k)`. -/
def removeKey : LabelMap → String → LabelMap
  | [], _ => []
  | kv :: rest, k => if kv.1 = k then removeKey rest k else kv :: removeKey rest k

/-! ## Label and annotation keys

The key constants live in `pkg/apis` which is outside the supplied source.
Modelled from the spec: §4.5/§4.10 name the two mark sets
(PP: ID label plus namespace/name annotations; CPP: ID label plus name
annotation) and §4.3 step 2 names the `ClaimedBy` label.  Only the
distinctness of the keys matters for the development. -/

def PropagationPolicyPermanentIDLabel : String :=
  "propagationpolicy.karmada.io/permanent-id"

def PropagationPolicyNamespaceAnnotationKey : String :=
  "propagationpolicy.karmada.io/namespace"

def PropagationPolicyNameAnnotationKey : String :=
  "propagationpolicy.karmada.io/name"

def ClusterPropagationPolicyPermanentIDLabel : String :=
  "clusterpropagationpolicy.karmada.io/permanent-id"

def ClusterPropagationPolicyAnnotationKey : String :=
  "clusterpropagationpolicy.karmada.io/name"

def ResourceTemplateClaimedByLabel : String :=
  "resourcetemplate.karmada.io/managed-by"

/-! ## Resource templates and policies -/

/-- A resource template as seen through `unstructured.Unstructured`:
the fields the detector reads (`detector.go` reads apiVersion, kind,
namespace, name, uid, resourceVersion, labels, annotations). -/
structure Unstructured where
  apiVersion : String
  kind : String
  ns : String
  name : String
  uid : String
  resourceVersion : String
  labels : LabelMap
  annotations : LabelMap
deriving DecidableEq

/-- One entry of a policy's `resourceSelectors`. Empty string stands for an
unset optional field, as in the Go type. -/
structure ResourceSelector where
  apiVersion : String
  kind : String
  ns : String
  name : String
  labelSelector : Option LabelMap
deriving DecidableEq

/-- Modelled from the spec: `util.ResourceMatches` is outside the supplied
source; §4.4 eligibility says a selector matches when all specified fields
(apiVersion, kind, optional namespace, optional name, optional
labelSelector as a match-labels set) match the template. -/
def ResourceMatches (obj : Unstructured) (rs : ResourceSelector) : Bool :=
  rs.apiVersion == obj.apiVersion &&
  rs.kind == obj.kind &&
  (rs.ns == "" || rs.ns == obj.ns) &&
  (rs.name == "" || rs.name == obj.name) &&
  (match rs.labelSelector with
    | none => true
    | some sel => sel.all fun kv => lookupKey obj.labels kv.1 == some kv.2)

/-- The policy spec fields the detector consumes (`PropagationSpec`).
Payloads the detector copies wholesale (placement, failover, …) are kept
opaque as strings. -/
structure PropagationSpec where
  resourceSelectors : List ResourceSelector
  placement : String
  schedulerName : String
  failover : Option String
  conflictResolution : String
  propagateDeps : Bool
  preemption : String
  activationPreference : String
deriving DecidableEq

/-- A `PropagationPolicy` (namespaced). `deletionTimestampIsZero` models
`DeletionTimestamp.IsZero()`, `finalizers` the object's finalizer list. -/
structure PropagationPolicy where
  ns : String
  name : String
  labels : LabelMap
  finalizers : List String
  deletionTimestampIsZero : Bool
  spec : PropagationSpec
deriving DecidableEq

/-- A `ClusterPropagationPolicy` (cluster-scoped). -/
structure ClusterPropagationPolicy where
  name : String
  labels : LabelMap
  finalizers : List String
  deletionTimestampIsZero : Bool
  spec : PropagationSpec
deriving DecidableEq

/-- Modelled from the spec: `util.IsLazyActivationEnabled` is outside the
supplied source; §4.3 gates on the policy's `activationPreference=Lazy`. -/
def IsLazyActivationEnabled (preference : String) : Bool :=
  preference == "Lazy"

/-- Modelled from the spec: `preemptionEnabled` is outside the supplied
source; §4.7 step e runs preemption iff `preemption=Always`. -/
def preemptionEnabled (preemption : String) : Bool :=
  preemption == "Always"

/-- Modelled from the spec: `excludeClusterPolicy` is outside the supplied
source; §4.3 says "for PP-driven applies on an already-CPP-labeled RT, the
conflicting label is stripped in the same update".  It removes the CPP
permanent-ID label from the map and reports whether it was present.
Returned as (label was present, map with the label stripped). -/
def excludeClusterPolicy (objLabels : LabelMap) : Bool × LabelMap :=
  ((lookupKey objLabels ClusterPropagationPolicyPermanentIDLabel).isSome,
   removeKey objLabels ClusterPropagationPolicyPermanentIDLabel)

/-! ## Claim protocol (`ClaimPolicyForObject`, `ClaimClusterPolicyForObject`)

The Go functions compute the new labels/annotations and then issue a
`Client.Update`; here the pure part returns the claimed policy ID together
with `none` (no update needed — the no-op branch at detector.go:708-712 and
736-738) or `some updatedObject` (the write the Go code sends). -/

/-- `ClaimPolicyForObject` (detector.go:701-728).  A nil and an empty label
map behave identically in the Go code (both skip the already-claimed check
and fall through to the write), so both are represented by `[]`. -/
def ClaimPolicyForObject (object : Unstructured) (policy : PropagationPolicy) :
    String × Option Unstructured :=
  let policyID := getVal policy.labels PropagationPolicyPermanentIDLabel
  if object.labels ≠ [] ∧ (excludeClusterPolicy object.labels).1 = false ∧
      getVal object.labels PropagationPolicyPermanentIDLabel = policyID then
    (policyID, none)
  else
    let objLabels := setKey (excludeClusterPolicy object.labels).2
      PropagationPolicyPermanentIDLabel policyID
    let objectAnnotations :=
      setKey (setKey object.annotations PropagationPolicyNamespaceAnnotationKey policy.ns)
        PropagationPolicyNameAnnotationKey policy.name
    (policyID, some { object with labels := objLabels, annotations := objectAnnotations })

/-- `ClaimClusterPolicyForObject` (detector.go:731-745).  `util.MergeLabel`
and `util.MergeAnnotation` are outside the supplied source; modelled from
the spec (§4.5: "sets `cpp-ID` label, `cpp-name` annotation") as key
insertion. -/
def ClaimClusterPolicyForObject (object : Unstructured)
    (policy : ClusterPropagationPolicy) : String × Option Unstructured :=
  let policyID := getVal policy.labels ClusterPropagationPolicyPermanentIDLabel
  let claimedID := getVal object.labels ClusterPropagationPolicyPermanentIDLabel
  if claimedID = policyID then
    (policyID, none)
  else
    (policyID, some { object with
      labels := setKey object.labels ClusterPropagationPolicyPermanentIDLabel policyID,
      annotations := setKey object.annotations ClusterPropagationPolicyAnnotationKey policy.name })

/-- The object a claim leaves behind: the pending write if there is one,
the unchanged object otherwise. -/
def afterClaim (object : Unstructured) (upd : Option Unstructured) : Unstructured :=
  match upd with
  | none => object
  | some o => o

/-! ## Bindings -/

/-- `metav1.OwnerReference`, restricted to the fields the detector uses. -/
structure OwnerReference where
  apiVersion : String
  kind : String
  name : String
  uid : String
  controller : Bool
deriving DecidableEq

/-- `workv1alpha2.ObjectReference` (the `spec.resource` snapshot). -/
structure ObjectReference where
  apiVersion : String
  kind : String
  ns : String
  name : String
  uid : String
  resourceVersion : String
deriving DecidableEq

/-- `workv1alpha2.ResourceBindingSpec`. `clusters` is the scheduler-owned
field; `replicas` is an `int32` carried as `Int` (no arithmetic is done on
it); `replicaRequirements` and `placement` are opaque payloads. -/
structure ResourceBindingSpec where
  resource : ObjectReference
  replicas : Int
  replicaRequirements : Option String
  propagateDeps : Bool
  schedulerName : String
  placement : Option String
  failover : Option String
  conflictResolution : String
  clusters : List String
deriving DecidableEq

/-- `workv1alpha2.ResourceBinding` (namespaced). -/
structure ResourceBinding where
  ns : String
  name : String
  labels : LabelMap
  annotations : LabelMap
  ownerReferences : List OwnerReference
  finalizers : List String
  spec : ResourceBindingSpec
deriving DecidableEq

/-- `workv1alpha2.ClusterResourceBinding` (cluster-scoped). -/
structure ClusterResourceBinding where
  name : String
  labels : LabelMap
  annotations : LabelMap
  ownerReferences : List OwnerReference
  finalizers : List String
  spec : ResourceBindingSpec
deriving DecidableEq

/-- Modelled from the spec: `names.GenerateBindingName` is outside the
supplied source; §4.6 specifies a deterministic name derived from the
template's kind and name. -/
def GenerateBindingName (kind name : String) : String :=
  name ++ "-" ++ kind

/-- Modelled from the spec: the finalizer constants (`util` package) are
outside the supplied source; §3 I4 names one finalizer per binding kind. -/
def BindingControllerFinalizer : String := "karmada.io/binding-controller"

def ClusterResourceBindingControllerFinalizer : String :=
  "karmada.io/cluster-resource-binding-controller"

def PropagationPolicyControllerFinalizer : String :=
  "karmada.io/propagation-policy-controller"

def ClusterPropagationPolicyControllerFinalizer : String :=
  "karmada.io/cluster-propagation-policy-controller"

/-- `metav1.NewControllerRef`: the single controller-owning reference to the
template (detector.go:756, 800). -/
def NewControllerRef (object : Unstructured) : OwnerReference :=
  { apiVersion := object.apiVersion, kind := object.kind,
    name := object.name, uid := object.uid, controller := true }

/-- `metav1.GetControllerOfNoCopy`: the owner reference flagged as
controller, if any. -/
def GetControllerOf (refs : List OwnerReference) : Option OwnerReference :=
  refs.find? (·.controller)

/-- Environment for the resource interpreter (§6): whether the
`InterpretReplica` hook is enabled for the object's GVK, and its result. -/
structure InterpEnv where
  hookEnabled : Bool
  getReplicas : Except String (Int × Option String)

/-- `BuildResourceBinding` (detector.go:748-790). -/
def BuildResourceBinding (interp : InterpEnv) (object : Unstructured)
    (labels annotations : LabelMap) (policySpec : PropagationSpec) :
    Except String ResourceBinding :=
  let base : ResourceBinding :=
    { ns := object.ns,
      name := GenerateBindingName object.kind object.name,
      ownerReferences := [NewControllerRef object],
      annotations := annotations,
      labels := labels,
      finalizers := [BindingControllerFinalizer],
      spec :=
        { propagateDeps := policySpec.propagateDeps,
          schedulerName := policySpec.schedulerName,
          placement := some policySpec.placement,
          failover := policySpec.failover,
          conflictResolution := policySpec.conflictResolution,
          resource :=
            { apiVersion := object.apiVersion, kind := object.kind,
              ns := object.ns, name := object.name, uid := object.uid,
              resourceVersion := object.resourceVersion },
          replicas := 0, replicaRequirements := none, clusters := [] } }
  if interp.hookEnabled then
    match interp.getReplicas with
    | Except.error e => Except.error e
    | Except.ok r =>
      Except.ok { base with spec :=
        { base.spec with replicas := r.1, replicaRequirements := r.2 } }
  else
    Except.ok base

/-- `BuildClusterResourceBinding` (detector.go:793-833).  Note: the source
sets `PropagateDeps: policySpec.PropagateDeps` (line 807) and leaves the
`Namespace` field of the resource reference unset (lines 812-818). -/
def BuildClusterResourceBinding (interp : InterpEnv) (object : Unstructured)
    (labels annotations : LabelMap) (policySpec : PropagationSpec) :
    Except String ClusterResourceBinding :=
  let base : ClusterResourceBinding :=
    { name := GenerateBindingName object.kind object.name,
      ownerReferences := [NewControllerRef object],
      annotations := annotations,
      labels := labels,
      finalizers := [ClusterResourceBindingControllerFinalizer],
      spec :=
        { propagateDeps := policySpec.propagateDeps,
          schedulerName := policySpec.schedulerName,
          placement := some policySpec.placement,
          failover := policySpec.failover,
          conflictResolution := policySpec.conflictResolution,
          resource :=
            { apiVersion := object.apiVersion, kind := object.kind,
              ns := "", name := object.name, uid := object.uid,
              resourceVersion := object.resourceVersion },
          replicas := 0, replicaRequirements := none, clusters := [] } }
  if interp.hookEnabled then
    match interp.getReplicas with
    | Except.error e => Except.error e
    | Except.ok r =>
      Except.ok { base with spec :=
        { base.spec with replicas := r.1, replicaRequirements := r.2 } }
  else
    Except.ok base

/-- Modelled from the spec: `util.DedupeAndMergeLabels` is outside the
supplied source; §4.3 says the callback "merges labels/annotations (dedup
on key)" — entries of the second map win on key collision. -/
def DedupeAndMergeLabels (existing incoming : LabelMap) : LabelMap :=
  incoming.foldl (fun acc kv => setKey acc kv.1 kv.2) existing

/-- Modelled from the spec: `util.DedupeAndMergeAnnotations`, same merge. -/
def DedupeAndMergeAnnotations (existing incoming : LabelMap) : LabelMap :=
  DedupeAndMergeLabels existing incoming

/-- The owner-identity guard shared by the three mutation callbacks
(detector.go:485-488, 579-582, 625-628): refuse when a controller owner
reference exists and its UID differs from the template's UID. -/
def ownerMismatch (objectUID : String) (refs : List OwnerReference) : Bool :=
  match GetControllerOf refs with
  | some ownerRef => ownerRef.uid != objectUID
  | none => false

def ownerMismatchError : String :=
  "failed to update binding due to different owner reference UID, will try again later after binding is garbage collected"

/-- The mutation callback of `ApplyPolicy` (detector.go:482-505), as a pure
function from the fetched state `bindingCopy` to its mutated state.
`binding` is the freshly built desired binding.  It ends by stripping the
CPP permanent-ID label (`excludeClusterPolicy(bindingCopy.Labels)`). -/
def applyPolicyMutate (objectUID : String) (binding bindingCopy : ResourceBinding) :
    Except String ResourceBinding :=
  if ownerMismatch objectUID bindingCopy.ownerReferences then
    Except.error ownerMismatchError
  else
    Except.ok { bindingCopy with
      annotations := DedupeAndMergeAnnotations bindingCopy.annotations binding.annotations,
      labels := removeKey (DedupeAndMergeLabels bindingCopy.labels binding.labels)
        ClusterPropagationPolicyPermanentIDLabel,
      ownerReferences := binding.ownerReferences,
      finalizers := binding.finalizers,
      spec := { bindingCopy.spec with
        resource := binding.spec.resource,
        replicaRequirements := binding.spec.replicaRequirements,
        replicas := binding.spec.replicas,
        propagateDeps := binding.spec.propagateDeps,
        schedulerName := binding.spec.schedulerName,
        placement := binding.spec.placement,
        failover := binding.spec.failover,
        conflictResolution := binding.spec.conflictResolution } }

/-- The mutation callback of the `ResourceBinding` branch of
`ApplyClusterPolicy` (detector.go:576-598): like `applyPolicyMutate` but
with no label stripping. -/
def applyClusterPolicyRBMutate (objectUID : String)
    (binding bindingCopy : ResourceBinding) : Except String ResourceBinding :=
  if ownerMismatch objectUID bindingCopy.ownerReferences then
    Except.error ownerMismatchError
  else
    Except.ok { bindingCopy with
      annotations := DedupeAndMergeAnnotations bindingCopy.annotations binding.annotations,
      labels := DedupeAndMergeLabels bindingCopy.labels binding.labels,
      ownerReferences := binding.ownerReferences,
      finalizers := binding.finalizers,
      spec := { bindingCopy.spec with
        resource := binding.spec.resource,
        replicaRequirements := binding.spec.replicaRequirements,
        replicas := binding.spec.replicas,
        propagateDeps := binding.spec.propagateDeps,
        schedulerName := binding.spec.schedulerName,
        placement := binding.spec.placement,
        failover := binding.spec.failover,
        conflictResolution := binding.spec.conflictResolution } }

/-- The mutation callback of the `ClusterResourceBinding` branch of
`ApplyClusterPolicy` (detector.go:622-643).  Note: the source does not
assign `Spec.PropagateDeps` here (compare lines 635-641 with 592). -/
def applyClusterPolicyCRBMutate (objectUID : String)
    (binding bindingCopy : ClusterResourceBinding) :
    Except String ClusterResourceBinding :=
  if ownerMismatch objectUID bindingCopy.ownerReferences then
    Except.error ownerMismatchError
  else
    Except.ok { bindingCopy with
      annotations := DedupeAndMergeAnnotations bindingCopy.annotations binding.annotations,
      labels := DedupeAndMergeLabels bindingCopy.labels binding.labels,
      ownerReferences := binding.ownerReferences,
      finalizers := binding.finalizers,
      spec := { bindingCopy.spec with
        resource := binding.spec.resource,
        replicaRequirements := binding.spec.replicaRequirements,
        replicas := binding.spec.replicas,
        schedulerName := binding.spec.schedulerName,
        placement := binding.spec.placement,
        failover := binding.spec.failover,
        conflictResolution := binding.spec.conflictResolution } }

/-- `controllerutil.OperationResult` restricted to the values the detector
distinguishes. -/
inductive OperationResult
  | resultNone
  | created
  | updated
deriving DecidableEq

/-- Modelled from the spec: `controllerutil.CreateOrUpdate` is an external
library helper (§6).  When the object is absent the mutation runs on the
desired copy and the object is created; when present the mutation runs on
the fetched state and an update is issued iff the state changed.  A
mutation error aborts without writing. -/
def createOrUpdate {B : Type} [DecidableEq B] (existing : Option B)
    (desired : B) (mutate : B → Except String B) :
    Except String (B × OperationResult) :=
  match existing with
  | none =>
    match mutate desired with
    | Except.error e => Except.error e
    | Except.ok b => Except.ok (b, OperationResult.created)
  | some current =>
    match mutate current with
    | Except.error e => Except.error e
    | Except.ok b =>
      Except.ok (b, if b = current then OperationResult.resultNone else OperationResult.updated)

/-! ## The apply functions -/

/-- A detector-initiated write, recorded in the order it is issued. -/
inductive Effect
  | rtUpdate (obj : Unstructured)
  | rbWrite (ns name : String) (b : ResourceBinding) (r : OperationResult)
  | crbWrite (name : String) (b : ClusterResourceBinding) (r : OperationResult)
deriving DecidableEq

/-- Whether an effect writes a binding (RB or CRB), as opposed to a
resource template. -/
def Effect.isBindingWrite : Effect → Bool
  | Effect.rtUpdate _ => false
  | Effect.rbWrite _ _ _ _ => true
  | Effect.crbWrite _ _ _ => true

/-- Environment of the apply functions: the pre-existing binding the
`CreateOrUpdate` fetch finds (keyed as the client keys it), whether the
claim's `Client.Update` succeeds, and the resource interpreter. -/
structure ApplyEnv where
  interp : InterpEnv
  claimUpdateOk : Bool
  existingRB : String → String → Option ResourceBinding
  existingCRB : String → Option ClusterResourceBinding

/-- The claim step of `ApplyPolicy` (detector.go:452-456): perform the
pending template update of `ClaimPolicyForObject`, if any. -/
def claimStepPP (env : ApplyEnv) (object : Unstructured)
    (policy : PropagationPolicy) : Except String (List Effect) :=
  match (ClaimPolicyForObject object policy).2 with
  | none => Except.ok []
  | some o =>
    if env.claimUpdateOk then Except.ok [Effect.rtUpdate o]
    else Except.error "failed to claim policy"

/-- The claim step of `ApplyClusterPolicy` (detector.go:543-547). -/
def claimStepCPP (env : ApplyEnv) (object : Unstructured)
    (policy : ClusterPropagationPolicy) : Except String (List Effect) :=
  match (ClaimClusterPolicyForObject object policy).2 with
  | none => Except.ok []
  | some o =>
    if env.claimUpdateOk then Except.ok [Effect.rtUpdate o]
    else Except.error "failed to claim cluster policy"

/-- `ApplyPolicy` (detector.go:437-525): claim, lazy gate, build, upsert.
Conflict retry (`retry.RetryOnConflict`) re-runs the same pure upsert, so a
single attempt is modelled. -/
def ApplyPolicy (env : ApplyEnv) (object : Unstructured)
    (resourceChangeByKarmada : Bool) (policy : PropagationPolicy) :
    Except String (List Effect) :=
  match claimStepPP env object policy with
  | Except.error e => Except.error e
  | Except.ok claimEffects =>
    if resourceChangeByKarmada && IsLazyActivationEnabled policy.spec.activationPreference then
      Except.ok claimEffects
    else
      let policyID := (ClaimPolicyForObject object policy).1
      let policyLabels := [(PropagationPolicyPermanentIDLabel, policyID)]
      let policyAnnotations :=
        [(PropagationPolicyNamespaceAnnotationKey, policy.ns),
         (PropagationPolicyNameAnnotationKey, policy.name)]
      match BuildResourceBinding env.interp object policyLabels policyAnnotations policy.spec with
      | Except.error e => Except.error e
      | Except.ok binding =>
        match createOrUpdate (env.existingRB binding.ns binding.name) binding
            (applyPolicyMutate object.uid binding) with
        | Except.error e => Except.error e
        | Except.ok br =>
          Except.ok (claimEffects ++ [Effect.rbWrite binding.ns binding.name br.1 br.2])

/-- `ApplyClusterPolicy` (detector.go:527-662): claim, lazy gate, then a
`ResourceBinding` for a namespaced template and a `ClusterResourceBinding`
for a cluster-scoped one (detector.go:565-568). -/
def ApplyClusterPolicy (env : ApplyEnv) (object : Unstructured)
    (resourceChangeByKarmada : Bool) (policy : ClusterPropagationPolicy) :
    Except String (List Effect) :=
  match claimStepCPP env object policy with
  | Except.error e => Except.error e
  | Except.ok claimEffects =>
    if resourceChangeByKarmada && IsLazyActivationEnabled policy.spec.activationPreference then
      Except.ok claimEffects
    else
      let policyID := (ClaimClusterPolicyForObject object policy).1
      let policyLabels := [(ClusterPropagationPolicyPermanentIDLabel, policyID)]
      let policyAnnotations := [(ClusterPropagationPolicyAnnotationKey, policy.name)]
      if object.ns ≠ "" then
        match BuildResourceBinding env.interp object policyLabels policyAnnotations policy.spec with
        | Except.error e => Except.error e
        | Except.ok binding =>
          match createOrUpdate (env.existingRB binding.ns binding.name) binding
              (applyClusterPolicyRBMutate object.uid binding) with
          | Except.error e => Except.error e
          | Except.ok br =>
            Except.ok (claimEffects ++ [Effect.rbWrite binding.ns binding.name br.1 br.2])
      else
        match BuildClusterResourceBinding env.interp object policyLabels policyAnnotations policy.spec with
        | Except.error e => Except.error e
        | Except.ok binding =>
          match createOrUpdate (env.existingCRB binding.name) binding
              (applyClusterPolicyCRBMutate object.uid binding) with
          | Except.error e => Except.error e
          | Except.ok br =>
            Except.ok (claimEffects ++ [Effect.crbWrite binding.name br.1 br.2])

/-! ## Policy-deletion cleanup (detector.go:1089-1198)

`CleanupResourceTemplateMarks`, `CleanupResourceBindingMarks` and
`CleanupClusterResourceBindingMarks` (detector.go:1331-1397) are I/O
loops around the dynamic/typed client; their per-object outcomes are
supplied by `CleanupEnv` (`true` = success, which includes the
template-not-found case the source treats as success). -/

structure CleanupEnv where
  rtCleanupOk : ObjectReference → Bool
  rbCleanupOk : String → String → Bool
  crbCleanupOk : String → Bool

/-- An observable cleanup write, in issue order.  `cleanRT` is a mark
removal on the resource template, `cleanRB`/`cleanCRB` on the binding
(carrying the binding's `spec.resource` to tie the two together). -/
inductive CleanupEvent
  | cleanRT (ref : ObjectReference) (ok : Bool)
  | cleanRB (ns name : String) (ref : ObjectReference) (ok : Bool)
  | cleanCRB (name : String) (ref : ObjectReference) (ok : Bool)
deriving DecidableEq

/-- One iteration of the loop of `HandlePropagationPolicyDeletion`
(detector.go:1106-1124): clean the template first; only on success clean
the binding.  Returns (events issued, no error recorded). -/
def ppDeletionStep (env : CleanupEnv) (b : ResourceBinding) :
    List CleanupEvent × Bool :=
  if env.rtCleanupOk b.spec.resource then
    let rbOk := env.rbCleanupOk b.ns b.name
    ([CleanupEvent.cleanRT b.spec.resource true,
      CleanupEvent.cleanRB b.ns b.name b.spec.resource rbOk], rbOk)
  else
    ([CleanupEvent.cleanRT b.spec.resource false], false)

/-- `HandlePropagationPolicyDeletion` (detector.go:1094-1126).  The listing
of bindings labeled with the policy ID is the `rbsResult` input; a listing
error is returned at once.  The second component is "no error was
aggregated" (`errors.NewAggregate(errs) == nil`). -/
def HandlePropagationPolicyDeletion (env : CleanupEnv)
    (rbsResult : Except String (List ResourceBinding)) :
    List CleanupEvent × Bool :=
  match rbsResult with
  | Except.error _ => ([], false)
  | Except.ok rbs =>
    (rbs.flatMap (fun b => (ppDeletionStep env b).1),
     rbs.all (fun b => (ppDeletionStep env b).2))

/-- One iteration of the `ClusterResourceBinding` loop of
`HandleClusterPropagationPolicyDeletion` (detector.go:1150-1168).  Note:
in this loop a template-cleanup failure is logged and skipped but NOT
appended to `errs` (detector.go:1155-1159), so it does not fail the
aggregate. -/
def cppDeletionCRBStep (env : CleanupEnv) (b : ClusterResourceBinding) :
    List CleanupEvent × Bool :=
  if env.rtCleanupOk b.spec.resource then
    let crbOk := env.crbCleanupOk b.name
    ([CleanupEvent.cleanRT b.spec.resource true,
      CleanupEvent.cleanCRB b.name b.spec.resource crbOk], crbOk)
  else
    ([CleanupEvent.cleanRT b.spec.resource false], true)

/-- One iteration of the `ResourceBinding` loop of
`HandleClusterPropagationPolicyDeletion` (detector.go:1177-1195). -/
def cppDeletionRBStep (env : CleanupEnv) (b : ResourceBinding) :
    List CleanupEvent × Bool :=
  if env.rtCleanupOk b.spec.resource then
    let rbOk := env.rbCleanupOk b.ns b.name
    ([CleanupEvent.cleanRT b.spec.resource true,
      CleanupEvent.cleanRB b.ns b.name b.spec.resource rbOk], rbOk)
  else
    ([CleanupEvent.cleanRT b.spec.resource false], false)

/-- `HandleClusterPropagationPolicyDeletion` (detector.go:1133-1198):
first the CRBs labeled with the policy ID, then the RBs; a listing error
is aggregated and the other list still processed. -/
def HandleClusterPropagationPolicyDeletion (env : CleanupEnv)
    (crbsResult : Except String (List ClusterResourceBinding))
    (rbsResult : Except String (List ResourceBinding)) :
    List CleanupEvent × Bool :=
  let crbPart : List CleanupEvent × Bool :=
    match crbsResult with
    | Except.error _ => ([], false)
    | Except.ok crbs =>
      (crbs.flatMap (fun b => (cppDeletionCRBStep env b).1),
       crbs.all (fun b => (cppDeletionCRBStep env b).2))
  let rbPart : List CleanupEvent × Bool :=
    match rbsResult with
    | Except.error _ => ([], false)
    | Except.ok rbs =>
      (rbs.flatMap (fun b => (cppDeletionRBStep env b).1),
       rbs.all (fun b => (cppDeletionRBStep env b).2))
  (crbPart.1 ++ rbPart.1, crbPart.2 && rbPart.2)

/-! ## Cluster-wide keys, the waiting set and the template reconciler -/

/-- `keys.ClusterWideKey`. -/
structure ClusterWideKey where
  group : String
  version : String
  kind : String
  ns : String
  name : String
deriving DecidableEq

/-- `keys.ClusterWideKeyWithConfig`. -/
structure ClusterWideKeyWithConfig where
  key : ClusterWideKey
  resourceChangeByKarmada : Bool
deriving DecidableEq

/-- A queue item as handed to a reconcile function (`util.QueueKey` is
`interface{}`; the reconcilers type-assert it). -/
inductive QueueKey
  | rtItem (k : ClusterWideKeyWithConfig)
  | cwk (k : ClusterWideKey)
  | raw (s : String)
deriving DecidableEq

/-- The waiting set, as the list of its members. -/
abbrev WaitingSet := List ClusterWideKey

/-- `AddWaiting` (detector.go:844-850). -/
def AddWaiting (waiting : WaitingSet) (objectKey : ClusterWideKey) : WaitingSet :=
  if objectKey ∈ waiting then waiting else objectKey :: waiting

/-- `RemoveWaiting` (detector.go:853-858). -/
def RemoveWaiting (waiting : WaitingSet) (objectKey : ClusterWideKey) : WaitingSet :=
  waiting.filter (fun k => k ≠ objectKey)

/-- `GetMatching` (detector.go:861-884): keys of waiting objects whose
fetched template matches at least one selector; fetch misses are skipped. -/
def GetMatching (fetch : ClusterWideKey → Option Unstructured)
    (waiting : WaitingSet) (resourceSelectors : List ResourceSelector) :
    List ClusterWideKey :=
  waiting.filterMap fun waitKey =>
    match fetch waitKey with
    | none => none
    | some waitObj =>
      if resourceSelectors.any (fun rs => ResourceMatches waitObj rs) then
        some waitKey
      else
        none

/-- Outcome of `GetUnstructuredObject` (detector.go:668-698): not-found,
another fetch error, or the object. -/
inductive FetchOutcome
  | notFound
  | fetchErr (e : String)
  | found (obj : Unstructured)

/-- Environment of the template reconciler.  `propagate` abstracts
`propagateResource` (called at detector.go:276), whose body is outside the
supplied source: it receives the object, its key, the change flag and the
waiting set, and yields its result together with the waiting set it leaves
behind. -/
structure ReconcileEnv where
  getObject : ClusterWideKey → FetchOutcome
  propagate : Unstructured → ClusterWideKey → Bool → WaitingSet →
    Except String Unit × WaitingSet

/-- What a template reconcile left behind: its returned error, the waiting
set, and whether control reached `propagateResource`. -/
structure ReconcileOutput where
  result : Except String Unit
  waiting : WaitingSet
  propagateCalled : Bool

/-- `Reconcile` (detector.go:243-277): type-assert the key, fetch (removing
the key from the waiting set on not-found), honor a third-party
`ClaimedBy` label, otherwise propagate. -/
def Reconcile (env : ReconcileEnv) (waiting : WaitingSet) (key : QueueKey) :
    ReconcileOutput :=
  match key with
  | QueueKey.rtItem kc =>
    let clusterWideKey := kc.key
    match env.getObject clusterWideKey with
    | FetchOutcome.notFound =>
      { result := Except.ok (), waiting := RemoveWaiting waiting clusterWideKey,
        propagateCalled := false }
    | FetchOutcome.fetchErr e =>
      { result := Except.error e, waiting := waiting, propagateCalled := false }
    | FetchOutcome.found object =>
      if getVal object.labels ResourceTemplateClaimedByLabel ≠ "" then
        { result := Except.ok (), waiting := RemoveWaiting waiting clusterWideKey,
          propagateCalled := false }
      else
        let pr := env.propagate object clusterWideKey kc.resourceChangeByKarmada waiting
        { result := pr.1, waiting := pr.2, propagateCalled := true }
  | _ =>
    { result := Except.error "invalid key", waiting := waiting, propagateCalled := false }

/-! ## Policy creation/update handlers (detector.go:1200-1329) -/

/-- `helper.ConstructClusterWideKey` is outside the supplied source.
Modelled from the spec: §3 defines the CWK as `(group, version, kind,
namespace, name)`; the apiVersion splits into group/version. -/
def ConstructClusterWideKey (ref : ObjectReference) :
    Except String ClusterWideKey :=
  match ref.apiVersion.splitOn "/" with
  | [v] =>
    Except.ok { group := "", version := v, kind := ref.kind,
                ns := ref.ns, name := ref.name }
  | [g, v] =>
    Except.ok { group := g, version := v, kind := ref.kind,
                ns := ref.ns, name := ref.name }
  | _ => Except.error "invalid apiVersion"

/-- A template-queue enqueue, tagged by the code site that issued it:
`derived` for the fanout over derived bindings (detector.go:1222-1228,
1289-1302), `matched` for keys taken out of the waiting set
(detector.go:1243-1246, 1316-1319). -/
inductive EnqueuedItem
  | derived (k : ClusterWideKeyWithConfig)
  | matched (k : ClusterWideKeyWithConfig)
deriving DecidableEq

def EnqueuedItem.isDerived : EnqueuedItem → Bool
  | EnqueuedItem.derived _ => true
  | EnqueuedItem.matched _ => false

/-- The fanout loop over derived bindings: construct each binding's
template key and enqueue it with `ResourceChangeByKarmada=true`; a key
construction error returns at once, keeping the enqueues already made. -/
def enqueueDerivedKeys : List ObjectReference →
    List EnqueuedItem × Option String
  | [] => ([], none)
  | ref :: rest =>
    match ConstructClusterWideKey ref with
    | Except.error e => ([], some e)
    | Except.ok k =>
      let tail := enqueueDerivedKeys rest
      (EnqueuedItem.derived { key := k, resourceChangeByKarmada := true } :: tail.1,
       tail.2)

/-- Environment of `HandlePropagationPolicyCreationOrUpdate`:
`cleanUnmatchedResult` abstracts `cleanPPUnmatchedRBs` (outside the
supplied source; §4.7 step a), `derivedRBsResult` the listing
`listPPDerivedRBs`, `overridesPresent` the outcome of
`helper.IsDependentOverridesPresent`, and `preemptionResult` abstracts
`handlePropagationPolicyPreemption` (outside the supplied source; §4.7.1
— it never touches the waiting set). -/
structure PPUpdateEnv where
  fetchRT : ClusterWideKey → Option Unstructured
  cleanUnmatchedResult : Except String Unit
  derivedRBsResult : Except String (List ResourceBinding)
  overridesPresent : Except String Bool
  preemptionResult : Except String Unit

/-- What a policy creation/update handler left behind. -/
structure PolicyHandlerOutput where
  result : Except String Unit
  waiting : WaitingSet
  enqueued : List EnqueuedItem

/-- `HandlePropagationPolicyCreationOrUpdate` (detector.go:1206-1256). -/
def HandlePropagationPolicyCreationOrUpdate (env : PPUpdateEnv)
    (waiting : WaitingSet) (policy : PropagationPolicy) : PolicyHandlerOutput :=
  match env.cleanUnmatchedResult with
  | Except.error e => { result := Except.error e, waiting := waiting, enqueued := [] }
  | Except.ok _ =>
    match env.derivedRBsResult with
    | Except.error e => { result := Except.error e, waiting := waiting, enqueued := [] }
    | Except.ok resourceBindings =>
      let fanout := enqueueDerivedKeys (resourceBindings.map (fun rb => rb.spec.resource))
      match fanout.2 with
      | some e =>
        { result := Except.error e, waiting := waiting, enqueued := fanout.1 }
      | none =>
        let matchedKeys := GetMatching env.fetchRT waiting policy.spec.resourceSelectors
        let overridesMissing : Bool :=
          matchedKeys.length > 0 &&
            (match env.overridesPresent with
             | Except.error _ => true
             | Except.ok present => !present)
        if overridesMissing then
          { result := Except.error "waiting for dependent overrides",
            waiting := waiting, enqueued := fanout.1 }
        else
          let waitingAfter := matchedKeys.foldl RemoveWaiting waiting
          let enqueuedAll := fanout.1 ++ matchedKeys.map
            (fun k => EnqueuedItem.matched { key := k, resourceChangeByKarmada := true })
          if preemptionEnabled policy.spec.preemption then
            { result := env.preemptionResult, waiting := waitingAfter,
              enqueued := enqueuedAll }
          else
            { result := Except.ok (), waiting := waitingAfter, enqueued := enqueuedAll }

/-- Environment of `HandleClusterPropagationPolicyCreationOrUpdate`:
`cleanUnmatchedRBResult`/`cleanUnmatchedCRBResult` abstract
`cleanCPPUnmatchedRBs`/`cleanUnmatchedCRBs` (outside the supplied source),
the two listings are `listCPPDerivedRBs`/`listCPPDerivedCRBs`, and
`overridesPresent` is `helper.IsDependentClusterOverridesPresent`. -/
structure CPPUpdateEnv where
  fetchRT : ClusterWideKey → Option Unstructured
  cleanUnmatchedRBResult : Except String Unit
  cleanUnmatchedCRBResult : Except String Unit
  derivedRBsResult : Except String (List ResourceBinding)
  derivedCRBsResult : Except String (List ClusterResourceBinding)
  overridesPresent : Except String Bool
  preemptionResult : Except String Unit

/-- `HandleClusterPropagationPolicyCreationOrUpdate`
(detector.go:1264-1329). -/
def HandleClusterPropagationPolicyCreationOrUpdate (env : CPPUpdateEnv)
    (waiting : WaitingSet) (policy : ClusterPropagationPolicy) :
    PolicyHandlerOutput :=
  match env.cleanUnmatchedRBResult with
  | Except.error e => { result := Except.error e, waiting := waiting, enqueued := [] }
  | Except.ok _ =>
    match env.cleanUnmatchedCRBResult with
    | Except.error e => { result := Except.error e, waiting := waiting, enqueued := [] }
    | Except.ok _ =>
      match env.derivedRBsResult with
      | Except.error e => { result := Except.error e, waiting := waiting, enqueued := [] }
      | Except.ok resourceBindings =>
        match env.derivedCRBsResult with
        | Except.error e => { result := Except.error e, waiting := waiting, enqueued := [] }
        | Except.ok clusterResourceBindings =>
          let fanoutRB := enqueueDerivedKeys
            (resourceBindings.map (fun rb => rb.spec.resource))
          match fanoutRB.2 with
          | some e =>
            { result := Except.error e, waiting := waiting, enqueued := fanoutRB.1 }
          | none =>
            let fanoutCRB := enqueueDerivedKeys
              (clusterResourceBindings.map (fun crb => crb.spec.resource))
            match fanoutCRB.2 with
            | some e =>
              { result := Except.error e, waiting := waiting,
                enqueued := fanoutRB.1 ++ fanoutCRB.1 }
            | none =>
              let fanout := fanoutRB.1 ++ fanoutCRB.1
              let matchedKeys := GetMatching env.fetchRT waiting policy.spec.resourceSelectors
              let overridesMissing : Bool :=
                matchedKeys.length > 0 &&
                  (match env.overridesPresent with
                   | Except.error _ => true
                   | Except.ok present => !present)
              if overridesMissing then
                { result := Except.error "waiting for dependent overrides",
                  waiting := waiting, enqueued := fanout }
              else
                let waitingAfter := matchedKeys.foldl RemoveWaiting waiting
                let enqueuedAll := fanout ++ matchedKeys.map
                  (fun k => EnqueuedItem.matched { key := k, resourceChangeByKarmada := true })
                if preemptionEnabled policy.spec.preemption then
                  { result := env.preemptionResult, waiting := waitingAfter,
                    enqueued := enqueuedAll }
                else
                  { result := Except.ok (), waiting := waitingAfter,
                    enqueued := enqueuedAll }

/-! ## Policy reconcilers (detector.go:947-985, 1048-1087) -/

/-- Modelled from the spec: `controllerutil.RemoveFinalizer` is an external
library helper; it reports whether the finalizer was present (and hence an
update must be issued). -/
def RemoveFinalizer (finalizers : List String) (finalizer : String) : Bool :=
  finalizer ∈ finalizers

/-- Outcome of a policy lister fetch plus typed conversion. -/
inductive PolicyFetch (P : Type)
  | notFound
  | fetchErr (e : String)
  | found (p : P)

/-- Environment of `ReconcilePropagationPolicy`: the lister fetch, the
listing of bindings labeled with the policy ID (for the deletion path),
the per-object cleanup outcomes, whether the finalizer-removing update
succeeds, and the creation/update environment. -/
structure PPReconcileEnv where
  lister : ClusterWideKey → PolicyFetch PropagationPolicy
  rbsLabeled : String → Except String (List ResourceBinding)
  deletionEnv : CleanupEnv
  finalizerUpdateOk : Bool
  updateEnv : PPUpdateEnv

/-- What a policy reconcile left behind. -/
structure PolicyReconcileOutput where
  result : Except String Unit
  waiting : WaitingSet
  enqueued : List EnqueuedItem
  cleanupTrace : List CleanupEvent

/-- `ReconcilePropagationPolicy` (detector.go:947-985). -/
def ReconcilePropagationPolicy (env : PPReconcileEnv) (waiting : WaitingSet)
    (key : QueueKey) : PolicyReconcileOutput :=
  match key with
  | QueueKey.cwk ckey =>
    match env.lister ckey with
    | PolicyFetch.notFound =>
      { result := Except.ok (), waiting := waiting, enqueued := [], cleanupTrace := [] }
    | PolicyFetch.fetchErr e =>
      { result := Except.error e, waiting := waiting, enqueued := [], cleanupTrace := [] }
    | PolicyFetch.found policy =>
      if !policy.deletionTimestampIsZero then
        let policyID := getVal policy.labels PropagationPolicyPermanentIDLabel
        let cleanup := HandlePropagationPolicyDeletion env.deletionEnv
          (env.rbsLabeled policyID)
        if !cleanup.2 then
          { result := Except.error "cleanup failed", waiting := waiting,
            enqueued := [], cleanupTrace := cleanup.1 }
        else if RemoveFinalizer policy.finalizers PropagationPolicyControllerFinalizer then
          if env.finalizerUpdateOk then
            { result := Except.ok (), waiting := waiting, enqueued := [],
              cleanupTrace := cleanup.1 }
          else
            { result := Except.error "failed to remove finalizer", waiting := waiting,
              enqueued := [], cleanupTrace := cleanup.1 }
        else
          { result := Except.ok (), waiting := waiting, enqueued := [],
            cleanupTrace := cleanup.1 }
      else
        let out := HandlePropagationPolicyCreationOrUpdate env.updateEnv waiting policy
        { result := out.result, waiting := out.waiting, enqueued := out.enqueued,
          cleanupTrace := [] }
  | _ =>
    { result := Except.error "invalid key", waiting := waiting, enqueued := [],
      cleanupTrace := [] }

/-- Environment of `ReconcileClusterPropagationPolicy`. -/
structure CPPReconcileEnv where
  lister : ClusterWideKey → PolicyFetch ClusterPropagationPolicy
  rbsLabeled : String → Except String (List ResourceBinding)
  crbsLabeled : String → Except String (List ClusterResourceBinding)
  deletionEnv : CleanupEnv
  finalizerUpdateOk : Bool
  updateEnv : CPPUpdateEnv

/-- `ReconcileClusterPropagationPolicy` (detector.go:1048-1087). -/
def ReconcileClusterPropagationPolicy (env : CPPReconcileEnv)
    (waiting : WaitingSet) (key : QueueKey) : PolicyReconcileOutput :=
  match key with
  | QueueKey.cwk ckey =>
    match env.lister ckey with
    | PolicyFetch.notFound =>
      { result := Except.ok (), waiting := waiting, enqueued := [], cleanupTrace := [] }
    | PolicyFetch.fetchErr e =>
      { result := Except.error e, waiting := waiting, enqueued := [], cleanupTrace := [] }
    | PolicyFetch.found policy =>
      if !policy.deletionTimestampIsZero then
        let policyID := getVal policy.labels ClusterPropagationPolicyPermanentIDLabel
        let cleanup := HandleClusterPropagationPolicyDeletion env.deletionEnv
          (env.crbsLabeled policyID) (env.rbsLabeled policyID)
        if !cleanup.2 then
          { result := Except.error "cleanup failed", waiting := waiting,
            enqueued := [], cleanupTrace := cleanup.1 }
        else if RemoveFinalizer policy.finalizers ClusterPropagationPolicyControllerFinalizer then
          if env.finalizerUpdateOk then
            { result := Except.ok (), waiting := waiting, enqueued := [],
              cleanupTrace := cleanup.1 }
          else
            { result := Except.error "failed to remove finalizer", waiting := waiting,
              enqueued := [], cleanupTrace := cleanup.1 }
        else
          { result := Except.ok (), waiting := waiting, enqueued := [],
            cleanupTrace := cleanup.1 }
      else
        let out := HandleClusterPropagationPolicyCreationOrUpdate env.updateEnv waiting policy
        { result := out.result, waiting := out.waiting, enqueued := out.enqueued,
          cleanupTrace := [] }
  | _ =>
    { result := Except.error "invalid key", waiting := waiting, enqueued := [],
      cleanupTrace := [] }

/-! ## Async worker disposition -/

/-- Modelled from the spec: the `util.AsyncWorker` runtime is outside the
supplied source.  §4.9: each worker "on returned error re-adds the key
with rate-limited delay; on nil error, forgets the key". -/
inductive WorkerDisposition
  | requeued
  | forgotten
deriving DecidableEq

/-- Modelled from the spec: the queue's treatment of a reconcile result
(§4.9). -/
def workerDisposition {α : Type} (result : Except String α) : WorkerDisposition :=
  match result with
  | Except.error _ => WorkerDisposition.requeued
  | Except.ok _ => WorkerDisposition.forgotten

/-! ## Concrete sample data -/

def sampleInterp : InterpEnv :=
  { hookEnabled := false, getReplicas := Except.ok (0, none) }

def sampleObjectNamespaced : Unstructured :=
  { apiVersion := "apps/v1", kind := "Deployment", ns := "default",
    name := "nginx", uid := "uid-1", resourceVersion := "7",
    labels := [], annotations := [] }

def sampleObjectClusterScoped : Unstructured :=
  { apiVersion := "v1", kind := "PersistentVolume", ns := "",
    name := "pv-1", uid := "uid-2", resourceVersion := "3",
    labels := [], annotations := [] }

def sampleClaimedByPP : Unstructured :=
  { sampleObjectNamespaced with
    labels := [(PropagationPolicyPermanentIDLabel, "pp-id-1")] }

def sampleClaimedExternally : Unstructured :=
  { sampleObjectNamespaced with
    labels := [(ResourceTemplateClaimedByLabel, "multiclusterservice")] }

def sampleSelector : ResourceSelector :=
  { apiVersion := "apps/v1", kind := "Deployment", ns := "", name := "",
    labelSelector := none }

def samplePolicySpec : PropagationSpec :=
  { resourceSelectors := [sampleSelector], placement := "placement-a",
    schedulerName := "default-scheduler", failover := none,
    conflictResolution := "Abort", propagateDeps := true,
    preemption := "Never", activationPreference := "" }

def samplePP : PropagationPolicy :=
  { ns := "default", name := "pp1",
    labels := [(PropagationPolicyPermanentIDLabel, "pp-id-1")],
    finalizers := [], deletionTimestampIsZero := true,
    spec := samplePolicySpec }

def sampleLazyPP : PropagationPolicy :=
  { samplePP with spec := { samplePolicySpec with activationPreference := "Lazy" } }

def sampleCPP : ClusterPropagationPolicy :=
  { name := "cpp1",
    labels := [(ClusterPropagationPolicyPermanentIDLabel, "cpp-id-1")],
    finalizers := [], deletionTimestampIsZero := true,
    spec := samplePolicySpec }

def sampleLazyCPP : ClusterPropagationPolicy :=
  { sampleCPP with spec := { samplePolicySpec with activationPreference := "Lazy" } }

def sampleRef : ObjectReference :=
  { apiVersion := "apps/v1", kind := "Deployment", ns := "default",
    name := "nginx", uid := "uid-1", resourceVersion := "7" }

def sampleRBSpec : ResourceBindingSpec :=
  { resource := sampleRef, replicas := 0, replicaRequirements := none,
    propagateDeps := false, schedulerName := "default-scheduler",
    placement := some "placement-a", failover := none,
    conflictResolution := "Abort", clusters := [] }

/-- A desired binding used to exercise the mutation callbacks directly. -/
def sampleDesiredRB : ResourceBinding :=
  { ns := "default", name := "nginx-Deployment", labels := [],
    annotations := [], ownerReferences := [], finalizers := [],
    spec := sampleRBSpec }

/-- A pre-existing binding: same as the desired one except that the
scheduler has already filled `spec.clusters`. -/
def sampleCurrentRB : ResourceBinding :=
  { sampleDesiredRB with spec := { sampleRBSpec with clusters := ["member1"] } }

/-- A stale pre-existing binding whose controller owner reference carries a
different UID than the live template. -/
def sampleStaleRB : ResourceBinding :=
  { sampleCurrentRB with ownerReferences :=
      [{ apiVersion := "apps/v1", kind := "Deployment", name := "nginx",
         uid := "stale-uid", controller := true }] }

def sampleStaleCRB : ClusterResourceBinding :=
  { name := "pv-1-PersistentVolume", labels := [], annotations := [],
    ownerReferences :=
      [{ apiVersion := "v1", kind := "PersistentVolume", name := "pv-1",
         uid := "stale-uid", controller := true }],
    finalizers := [], spec := sampleRBSpec }

def sampleApplyEnv : ApplyEnv :=
  { interp := sampleInterp, claimUpdateOk := true,
    existingRB := fun _ _ => none, existingCRB := fun _ => none }

def sampleApplyEnvStaleRB : ApplyEnv :=
  { sampleApplyEnv with existingRB := fun _ _ => some sampleStaleRB }

def sampleApplyEnvStaleCRB : ApplyEnv :=
  { sampleApplyEnv with existingCRB := fun _ => some sampleStaleCRB }

def sampleCleanupEnv : CleanupEnv :=
  { rtCleanupOk := fun _ => true, rbCleanupOk := fun _ _ => true,
    crbCleanupOk := fun _ => true }

def sampleLabeledRB : ResourceBinding :=
  { sampleDesiredRB with labels := [(PropagationPolicyPermanentIDLabel, "pp-id-1")] }

def sampleLabeledCRB : ClusterResourceBinding :=
  { name := "pv-1-PersistentVolume",
    labels := [(ClusterPropagationPolicyPermanentIDLabel, "cpp-id-1")],
    annotations := [], ownerReferences := [], finalizers := [],
    spec := sampleRBSpec }

def sampleCWK : ClusterWideKey :=
  { group := "apps", version := "v1", kind := "Deployment",
    ns := "default", name := "nginx" }

def sampleReconcileEnvClaimed : ReconcileEnv :=
  { getObject := fun _ => FetchOutcome.found sampleClaimedExternally,
    propagate := fun _ _ _ waiting => (Except.error "propagate ran", waiting) }

def samplePPReconcileEnv : PPReconcileEnv :=
  { lister := fun _ => PolicyFetch.notFound,
    rbsLabeled := fun _ => Except.ok [],
    deletionEnv := sampleCleanupEnv,
    finalizerUpdateOk := true,
    updateEnv :=
      { fetchRT := fun _ => none,
        cleanUnmatchedResult := Except.ok (),
        derivedRBsResult := Except.ok [],
        overridesPresent := Except.ok true,
        preemptionResult := Except.ok () } }

def sampleCPPReconcileEnv : CPPReconcileEnv :=
  { lister := fun _ => PolicyFetch.notFound,
    rbsLabeled := fun _ => Except.ok [],
    crbsLabeled := fun _ => Except.ok [],
    deletionEnv := sampleCleanupEnv,
    finalizerUpdateOk := true,
    updateEnv :=
      { fetchRT := fun _ => none,
        cleanUnmatchedRBResult := Except.ok (),
        cleanUnmatchedCRBResult := Except.ok (),
        derivedRBsResult := Except.ok [],
        derivedCRBsResult := Except.ok [],
        overridesPresent := Except.ok true,
        preemptionResult := Except.ok () } }

def samplePPUpdateEnvMissingOverrides : PPUpdateEnv :=
  { fetchRT := fun _ => some sampleObjectNamespaced,
    cleanUnmatchedResult := Except.ok (),
    derivedRBsResult := Except.ok [],
    overridesPresent := Except.ok false,
    preemptionResult := Except.ok () }

def sampleCPPUpdateEnvMissingOverrides : CPPUpdateEnv :=
  { fetchRT := fun _ => some sampleObjectNamespaced,
    cleanUnmatchedRBResult := Except.ok (),
    cleanUnmatchedCRBResult := Except.ok (),
    derivedRBsResult := Except.ok [],
    derivedCRBsResult := Except.ok [],
    overridesPresent := Except.error "list overrides failed",
    preemptionResult := Except.ok () }

/-- The `propagateDeps` recorded by a CRB write effect, used to observe the
create path of `ApplyClusterPolicy`. -/
def Effect.crbPropagateDeps : Effect → Option Bool
  | Effect.crbWrite _ b _ => some b.spec.propagateDeps
  | _ => none

def sampleApplyEnvCurrentRB : ApplyEnv :=
  { sampleApplyEnv with existingRB := fun _ _ => some sampleCurrentRB }

/-- The effects of a concrete `ApplyPolicy` run against a pre-existing
binding whose `spec.clusters` the scheduler has already filled. -/
def sampleApplyEffects : List Effect :=
  (ApplyPolicy sampleApplyEnvCurrentRB sampleObjectNamespaced false samplePP).toOption.getD []

/-- The first ResourceBinding written by a list of effects. -/
def firstRBWrite (effs : List Effect) : Option ResourceBinding :=
  (effs.filterMap fun e =>
    match e with
    | Effect.rbWrite _ _ b _ => some b
    | _ => none).head?

def sampleMutatedRB : ResourceBinding :=
  (firstRBWrite sampleApplyEffects).getD sampleDesiredRB

/-- The effects of the claim step of a concrete lazy-policy apply. -/
def sampleLazyClaimEffects : List Effect :=
  (claimStepPP sampleApplyEnv sampleObjectNamespaced sampleLazyPP).toOption.getD []

/-- The effects of a concrete `ApplyClusterPolicy` run on a namespaced
template. -/
def sampleCPPApplyEffects : List Effect :=
  (ApplyClusterPolicy sampleApplyEnv sampleObjectNamespaced false sampleCPP).toOption.getD []

/-- The effects of a concrete `ApplyClusterPolicy` run on a cluster-scoped
template (create path: no pre-existing CRB). -/
def sampleCRBCreateEffects : List Effect :=
  (ApplyClusterPolicy sampleApplyEnv sampleObjectClusterScoped false sampleCPP).toOption.getD []

def sampleDesiredCRB : ClusterResourceBinding :=
  { name := "pv-1-PersistentVolume", labels := [], annotations := [],
    ownerReferences := [], finalizers := [],
    spec := { sampleRBSpec with propagateDeps := true } }

def sampleCurrentCRB : ClusterResourceBinding :=
  { sampleDesiredCRB with spec := sampleRBSpec }

def sampleMutatedCRB : ClusterResourceBinding :=
  ((applyClusterPolicyCRBMutate "uid-2" sampleDesiredCRB
    sampleCurrentCRB).toOption).getD sampleDesiredCRB

/-! ## Helper lemmas -/

theorem lookupKey_setKey_self (m : LabelMap) (k v : String) :
    lookupKey (setKey m k v) k = some v := by
  induction m with
  | nil => simp [setKey, lookupKey]
  | cons kv rest ih =>
    by_cases h : kv.1 = k
    · simp [setKey, h, lookupKey]
    · simp [setKey, h, lookupKey, ih]

theorem lookupKey_setKey_ne (m : LabelMap) (k v k2 : String) (h : k2 ≠ k) :
    lookupKey (setKey m k v) k2 = lookupKey m k2 := by
  have h2 : k ≠ k2 := Ne.symm h
  induction m with
  | nil => simp [setKey, lookupKey, h2]
  | cons kv rest ih =>
    by_cases hk : kv.1 = k
    · simp [setKey, hk, lookupKey, h2]
    · simp [setKey, hk, lookupKey, ih]

theorem lookupKey_removeKey_self (m : LabelMap) (k : String) :
    lookupKey (removeKey m k) k = none := by
  induction m with
  | nil => simp [removeKey, lookupKey]
  | cons kv rest ih =>
    by_cases h : kv.1 = k
    · simp [removeKey, h, ih]
    · simp [removeKey, h, lookupKey, ih]

theorem setKey_ne_nil (m : LabelMap) (k v : String) : setKey m k v ≠ [] := by
  cases m with
  | nil => simp [setKey]
  | cons kv rest =>
    by_cases h : kv.1 = k <;> simp [setKey, h]

/-- Distinctness of the two permanent-ID label keys. -/
theorem ppLabel_ne_cppLabel :
    PropagationPolicyPermanentIDLabel ≠ ClusterPropagationPolicyPermanentIDLabel := by
  decide

/-- C3. `ClaimPolicyForObject` (and `ClaimClusterPolicyForObject`) is
idempotent: when the template already bears the target policy's permanent
ID under the correct-scope label and no cross-scope label needs clearing,
the claim returns the existing policy ID with no template update; hence a
second claim right after a first one never issues a second write. -/
theorem claim_is_idempotent :
    (∀ (object : Unstructured) (policy : PropagationPolicy),
      object.labels ≠ [] →
      lookupKey object.labels ClusterPropagationPolicyPermanentIDLabel = none →
      getVal object.labels PropagationPolicyPermanentIDLabel
        = getVal policy.labels PropagationPolicyPermanentIDLabel →
      ClaimPolicyForObject object policy
        = (getVal policy.labels PropagationPolicyPermanentIDLabel, none)) ∧
    (∀ (object : Unstructured) (policy : PropagationPolicy),
      ClaimPolicyForObject (afterClaim object (ClaimPolicyForObject object policy).2) policy
        = ((ClaimPolicyForObject object policy).1, none)) ∧
    (∀ (object : Unstructured) (policy : ClusterPropagationPolicy),
      getVal object.labels ClusterPropagationPolicyPermanentIDLabel
        = getVal policy.labels ClusterPropagationPolicyPermanentIDLabel →
      ClaimClusterPolicyForObject object policy
        = (getVal policy.labels ClusterPropagationPolicyPermanentIDLabel, none)) ∧
    (∀ (object : Unstructured) (policy : ClusterPropagationPolicy),
      ClaimClusterPolicyForObject
          (afterClaim object (ClaimClusterPolicyForObject object policy).2) policy
        = ((ClaimClusterPolicyForObject object policy).1, none)) := by
  refine ⟨?_, ?_, ?_, ?_⟩
  · intro object policy hne hcpp hid
    have hc : object.labels ≠ [] ∧ (excludeClusterPolicy object.labels).1 = false ∧
        getVal object.labels PropagationPolicyPermanentIDLabel
          = getVal policy.labels PropagationPolicyPermanentIDLabel :=
      ⟨hne, by simp [excludeClusterPolicy, hcpp], hid⟩
    simp [ClaimPolicyForObject, hc]
  · intro object policy
    by_cases hc : object.labels ≠ [] ∧ (excludeClusterPolicy object.labels).1 = false ∧
        getVal object.labels PropagationPolicyPermanentIDLabel
          = getVal policy.labels PropagationPolicyPermanentIDLabel
    · have h1 : ClaimPolicyForObject object policy
          = (getVal policy.labels PropagationPolicyPermanentIDLabel, none) := by
        simp [ClaimPolicyForObject, hc]
      rw [h1]
      simpa [afterClaim] using h1
    · have h1 : (ClaimPolicyForObject object policy).2 = some
          { object with
            labels := setKey (excludeClusterPolicy object.labels).2
              PropagationPolicyPermanentIDLabel
              (getVal policy.labels PropagationPolicyPermanentIDLabel),
            annotations :=
              setKey (setKey object.annotations PropagationPolicyNamespaceAnnotationKey policy.ns)
                PropagationPolicyNameAnnotationKey policy.name } := by
        simp [ClaimPolicyForObject, hc]
      have h0 : (ClaimPolicyForObject object policy).1
          = getVal policy.labels PropagationPolicyPermanentIDLabel := by
        by_cases hc2 : object.labels ≠ [] ∧ (excludeClusterPolicy object.labels).1 = false ∧
            getVal object.labels PropagationPolicyPermanentIDLabel
              = getVal policy.labels PropagationPolicyPermanentIDLabel <;>
          simp [ClaimPolicyForObject, hc2]
      rw [h1, h0]
      have hcond : (setKey (excludeClusterPolicy object.labels).2
            PropagationPolicyPermanentIDLabel
            (getVal policy.labels PropagationPolicyPermanentIDLabel)) ≠ [] ∧
          (excludeClusterPolicy (setKey (excludeClusterPolicy object.labels).2
            PropagationPolicyPermanentIDLabel
            (getVal policy.labels PropagationPolicyPermanentIDLabel))).1 = false ∧
          getVal (setKey (excludeClusterPolicy object.labels).2
            PropagationPolicyPermanentIDLabel
            (getVal policy.labels PropagationPolicyPermanentIDLabel))
            PropagationPolicyPermanentIDLabel
            = getVal policy.labels PropagationPolicyPermanentIDLabel := by
        refine ⟨setKey_ne_nil _ _ _, ?_, ?_⟩
        · simp [excludeClusterPolicy,
            lookupKey_setKey_ne _ _ _ _ (Ne.symm ppLabel_ne_cppLabel),
            lookupKey_removeKey_self]
        · simp [getVal, lookupKey_setKey_self]
      simp [afterClaim, ClaimPolicyForObject, hcond]
  · intro object policy hid
    simp [ClaimClusterPolicyForObject, hid]
  · intro object policy
    by_cases hc : getVal object.labels ClusterPropagationPolicyPermanentIDLabel
        = getVal policy.labels ClusterPropagationPolicyPermanentIDLabel
    · have h1 : ClaimClusterPolicyForObject object policy
          = (getVal policy.labels ClusterPropagationPolicyPermanentIDLabel, none) := by
        simp [ClaimClusterPolicyForObject, hc]
      rw [h1]
      simpa [afterClaim] using h1
    · have h1 : (ClaimClusterPolicyForObject object policy).2 = some
          { object with
            labels := setKey object.labels ClusterPropagationPolicyPermanentIDLabel
              (getVal policy.labels ClusterPropagationPolicyPermanentIDLabel),
            annotations := setKey object.annotations ClusterPropagationPolicyAnnotationKey
              policy.name } := by
        simp [ClaimClusterPolicyForObject, hc]
      have h0 : (ClaimClusterPolicyForObject object policy).1
          = getVal policy.labels ClusterPropagationPolicyPermanentIDLabel := by
        by_cases hc2 : getVal object.labels ClusterPropagationPolicyPermanentIDLabel
            = getVal policy.labels ClusterPropagationPolicyPermanentIDLabel <;>
          simp [ClaimClusterPolicyForObject, hc2]
      rw [h1, h0]
      simp [afterClaim, ClaimClusterPolicyForObject, getVal, lookupKey_setKey_self]

/-- Witness for C3 at a concrete input: a template already labeled with
`pp-id-1` is claimed by the policy carrying that permanent ID without any
update. -/
theorem claim_is_idempotent_witness :
    ClaimPolicyForObject sampleClaimedByPP samplePP = ("pp-id-1", none) := by
  have h := claim_is_idempotent.1 sampleClaimedByPP samplePP
    (by decide) (by decide) (by decide)
  rw [h]
  decide

/-- Every effect the claim step emits is a template update. -/
theorem claimStepPP_effects (env : ApplyEnv) (object : Unstructured)
    (policy : PropagationPolicy) (effs : List Effect)
    (h : claimStepPP env object policy = Except.ok effs) :
    ∀ e ∈ effs, ∃ o, e = Effect.rtUpdate o := by
  unfold claimStepPP at h
  cases hcl : (ClaimPolicyForObject object policy).2 with
  | none =>
    rw [hcl] at h
    cases h
    simp
  | some o =>
    rw [hcl] at h
    dsimp only at h
    by_cases hup : env.claimUpdateOk = true
    · rw [if_pos hup] at h
      cases h
      simp
    · rw [if_neg hup] at h
      cases h

/-- Every effect the cluster claim step emits is a template update. -/
theorem claimStepCPP_effects (env : ApplyEnv) (object : Unstructured)
    (policy : ClusterPropagationPolicy) (effs : List Effect)
    (h : claimStepCPP env object policy = Except.ok effs) :
    ∀ e ∈ effs, ∃ o, e = Effect.rtUpdate o := by
  unfold claimStepCPP at h
  cases hcl : (ClaimClusterPolicyForObject object policy).2 with
  | none =>
    rw [hcl] at h
    cases h
    simp
  | some o =>
    rw [hcl] at h
    dsimp only at h
    by_cases hup : env.claimUpdateOk = true
    · rw [if_pos hup] at h
      cases h
      simp
    · rw [if_neg hup] at h
      cases h

/-- `createOrUpdate` on a present object runs the mutation on the fetched
state. -/
theorem createOrUpdate_some_ok {B : Type} [DecidableEq B] (current desired : B)
    (mutate : B → Except String B) (br : B × OperationResult)
    (h : createOrUpdate (some current) desired mutate = Except.ok br) :
    mutate current = Except.ok br.1 := by
  unfold createOrUpdate at h
  dsimp only at h
  cases hm : mutate current with
  | error e => rw [hm] at h; cases h
  | ok b => rw [hm] at h; cases h; rfl

/-- `createOrUpdate` propagates a mutation error without writing. -/
theorem createOrUpdate_some_error {B : Type} [DecidableEq B] (current desired : B)
    (mutate : B → Except String B) (e : String)
    (h : mutate current = Except.error e) :
    createOrUpdate (some current) desired mutate = Except.error e := by
  unfold createOrUpdate
  dsimp only
  rw [h]

/-- Metadata of a successfully built `ResourceBinding`. -/
theorem BuildResourceBinding_meta (interp : InterpEnv) (object : Unstructured)
    (l a : LabelMap) (ps : PropagationSpec) (b : ResourceBinding)
    (h : BuildResourceBinding interp object l a ps = Except.ok b) :
    b.ns = object.ns ∧ b.name = GenerateBindingName object.kind object.name ∧
    b.spec.propagateDeps = ps.propagateDeps ∧ b.spec.clusters = [] ∧
    b.ownerReferences = [NewControllerRef object] ∧
    b.finalizers = [BindingControllerFinalizer] := by
  unfold BuildResourceBinding at h
  by_cases hh : interp.hookEnabled = true
  · rw [if_pos hh] at h
    cases hr : interp.getReplicas with
    | error e => rw [hr] at h; cases h
    | ok r =>
      rw [hr] at h
      injection h with h2
      subst h2
      exact ⟨rfl, rfl, rfl, rfl, rfl, rfl⟩
  · rw [if_neg hh] at h
    injection h with h2
    subst h2
    exact ⟨rfl, rfl, rfl, rfl, rfl, rfl⟩

/-- Metadata of a successfully built `ClusterResourceBinding`. -/
theorem BuildClusterResourceBinding_meta (interp : InterpEnv) (object : Unstructured)
    (l a : LabelMap) (ps : PropagationSpec) (b : ClusterResourceBinding)
    (h : BuildClusterResourceBinding interp object l a ps = Except.ok b) :
    b.name = GenerateBindingName object.kind object.name ∧
    b.spec.propagateDeps = ps.propagateDeps ∧ b.spec.clusters = [] ∧
    b.ownerReferences = [NewControllerRef object] ∧
    b.finalizers = [ClusterResourceBindingControllerFinalizer] := by
  unfold BuildClusterResourceBinding at h
  by_cases hh : interp.hookEnabled = true
  · rw [if_pos hh] at h
    cases hr : interp.getReplicas with
    | error e => rw [hr] at h; cases h
    | ok r =>
      rw [hr] at h
      injection h with h2
      subst h2
      exact ⟨rfl, rfl, rfl, rfl, rfl⟩
  · rw [if_neg hh] at h
    injection h with h2
    subst h2
    exact ⟨rfl, rfl, rfl, rfl, rfl⟩

/-- Case analysis of a successful `ApplyPolicy` run. -/
theorem ApplyPolicy_ok_shape (env : ApplyEnv) (object : Unstructured) (rck : Bool)
    (policy : PropagationPolicy) (effs : List Effect)
    (h : ApplyPolicy env object rck policy = Except.ok effs) :
    ∃ ce, claimStepPP env object policy = Except.ok ce ∧
      (((rck && IsLazyActivationEnabled policy.spec.activationPreference) = true ∧ effs = ce) ∨
       ((rck && IsLazyActivationEnabled policy.spec.activationPreference) = false ∧
        ∃ binding br,
          BuildResourceBinding env.interp object
            [(PropagationPolicyPermanentIDLabel, (ClaimPolicyForObject object policy).1)]
            [(PropagationPolicyNamespaceAnnotationKey, policy.ns),
             (PropagationPolicyNameAnnotationKey, policy.name)] policy.spec
            = Except.ok binding ∧
          createOrUpdate (env.existingRB binding.ns binding.name) binding
            (applyPolicyMutate object.uid binding) = Except.ok br ∧
          effs = ce ++ [Effect.rbWrite binding.ns binding.name br.1 br.2])) := by
  unfold ApplyPolicy at h
  cases hcs : claimStepPP env object policy with
  | error e => rw [hcs] at h; cases h
  | ok ce =>
    rw [hcs] at h
    dsimp only at h
    refine ⟨ce, rfl, ?_⟩
    by_cases hlazy : (rck && IsLazyActivationEnabled policy.spec.activationPreference) = true
    · rw [if_pos hlazy] at h
      injection h with h2
      exact Or.inl ⟨hlazy, h2.symm⟩
    · rw [if_neg hlazy] at h
      cases hb : BuildResourceBinding env.interp object
          [(PropagationPolicyPermanentIDLabel, (ClaimPolicyForObject object policy).1)]
          [(PropagationPolicyNamespaceAnnotationKey, policy.ns),
           (PropagationPolicyNameAnnotationKey, policy.name)] policy.spec with
      | error e => rw [hb] at h; cases h
      | ok binding =>
        rw [hb] at h
        dsimp only at h
        cases hco : createOrUpdate (env.existingRB binding.ns binding.name) binding
            (applyPolicyMutate object.uid binding) with
        | error e => rw [hco] at h; cases h
        | ok br =>
          rw [hco] at h
          injection h with h2
          exact Or.inr ⟨by simpa using hlazy, binding, br, rfl, hco, h2.symm⟩

/-- Case analysis of a successful `ApplyClusterPolicy` run. -/
theorem ApplyClusterPolicy_ok_shape (env : ApplyEnv) (object : Unstructured)
    (rck : Bool) (policy : ClusterPropagationPolicy) (effs : List Effect)
    (h : ApplyClusterPolicy env object rck policy = Except.ok effs) :
    ∃ ce, claimStepCPP env object policy = Except.ok ce ∧
      (((rck && IsLazyActivationEnabled policy.spec.activationPreference) = true ∧ effs = ce) ∨
       ((rck && IsLazyActivationEnabled policy.spec.activationPreference) = false ∧
        ((object.ns ≠ "" ∧ ∃ binding br,
            BuildResourceBinding env.interp object
              [(ClusterPropagationPolicyPermanentIDLabel,
                (ClaimClusterPolicyForObject object policy).1)]
              [(ClusterPropagationPolicyAnnotationKey, policy.name)] policy.spec
              = Except.ok binding ∧
            createOrUpdate (env.existingRB binding.ns binding.name) binding
              (applyClusterPolicyRBMutate object.uid binding) = Except.ok br ∧
            effs = ce ++ [Effect.rbWrite binding.ns binding.name br.1 br.2]) ∨
         (object.ns = "" ∧ ∃ binding br,
            BuildClusterResourceBinding env.interp object
              [(ClusterPropagationPolicyPermanentIDLabel,
                (ClaimClusterPolicyForObject object policy).1)]
              [(ClusterPropagationPolicyAnnotationKey, policy.name)] policy.spec
              = Except.ok binding ∧
            createOrUpdate (env.existingCRB binding.name) binding
              (applyClusterPolicyCRBMutate object.uid binding) = Except.ok br ∧
            effs = ce ++ [Effect.crbWrite binding.name br.1 br.2])))) := by
  unfold ApplyClusterPolicy at h
  cases hcs : claimStepCPP env object policy with
  | error e => rw [hcs] at h; cases h
  | ok ce =>
    rw [hcs] at h
    dsimp only at h
    refine ⟨ce, rfl, ?_⟩
    by_cases hlazy : (rck && IsLazyActivationEnabled policy.spec.activationPreference) = true
    · rw [if_pos hlazy] at h
      injection h with h2
      exact Or.inl ⟨hlazy, h2.symm⟩
    · rw [if_neg hlazy] at h
      by_cases hns : object.ns ≠ ""
      · rw [if_pos hns] at h
        cases hb : BuildResourceBinding env.interp object
            [(ClusterPropagationPolicyPermanentIDLabel,
              (ClaimClusterPolicyForObject object policy).1)]
            [(ClusterPropagationPolicyAnnotationKey, policy.name)] policy.spec with
        | error e => rw [hb] at h; cases h
        | ok binding =>
          rw [hb] at h
          dsimp only at h
          cases hco : createOrUpdate (env.existingRB binding.ns binding.name) binding
              (applyClusterPolicyRBMutate object.uid binding) with
          | error e => rw [hco] at h; cases h
          | ok br =>
            rw [hco] at h
            injection h with h2
            exact Or.inr ⟨by simpa using hlazy,
              Or.inl ⟨hns, binding, br, rfl, hco, h2.symm⟩⟩
      · rw [if_neg hns] at h
        cases hb : BuildClusterResourceBinding env.interp object
            [(ClusterPropagationPolicyPermanentIDLabel,
              (ClaimClusterPolicyForObject object policy).1)]
            [(ClusterPropagationPolicyAnnotationKey, policy.name)] policy.spec with
        | error e => rw [hb] at h; cases h
        | ok binding =>
          rw [hb] at h
          dsimp only at h
          cases hco : createOrUpdate (env.existingCRB binding.name) binding
              (applyClusterPolicyCRBMutate object.uid binding) with
          | error e => rw [hco] at h; cases h
          | ok br =>
            rw [hco] at h
            injection h with h2
            exact Or.inr ⟨by simpa using hlazy,
              Or.inr ⟨by simpa using hns, binding, br, rfl, hco, h2.symm⟩⟩

/-- Full characterization of a successful `applyPolicyMutate`. -/
theorem applyPolicyMutate_ok (uid : String) (desired current b : ResourceBinding)
    (h : applyPolicyMutate uid desired current = Except.ok b) :
    b.spec.clusters = current.spec.clusters ∧
    b.ownerReferences = desired.ownerReferences ∧
    b.finalizers = desired.finalizers ∧
    b.spec.placement = desired.spec.placement ∧
    b.spec.resource = desired.spec.resource ∧
    b.spec.propagateDeps = desired.spec.propagateDeps ∧
    b.labels = removeKey (DedupeAndMergeLabels current.labels desired.labels)
      ClusterPropagationPolicyPermanentIDLabel ∧
    b.annotations = DedupeAndMergeAnnotations current.annotations desired.annotations := by
  unfold applyPolicyMutate at h
  by_cases hm : ownerMismatch uid current.ownerReferences = true
  · rw [if_pos hm] at h; cases h
  · rw [if_neg hm] at h
    injection h with h2
    subst h2
    exact ⟨rfl, rfl, rfl, rfl, rfl, rfl, rfl, rfl⟩

/-- Characterization of a successful `applyClusterPolicyRBMutate`. -/
theorem applyClusterPolicyRBMutate_ok (uid : String)
    (desired current b : ResourceBinding)
    (h : applyClusterPolicyRBMutate uid desired current = Except.ok b) :
    b.spec.clusters = current.spec.clusters ∧
    b.spec.propagateDeps = desired.spec.propagateDeps := by
  unfold applyClusterPolicyRBMutate at h
  by_cases hm : ownerMismatch uid current.ownerReferences = true
  · rw [if_pos hm] at h; cases h
  · rw [if_neg hm] at h
    injection h with h2
    subst h2
    exact ⟨rfl, rfl⟩

/-- Characterization of a successful `applyClusterPolicyCRBMutate`: the
scheduler-owned `clusters` and the `propagateDeps` of the fetched state
are both left as they are. -/
theorem applyClusterPolicyCRBMutate_ok (uid : String)
    (desired current b : ClusterResourceBinding)
    (h : applyClusterPolicyCRBMutate uid desired current = Except.ok b) :
    b.spec.clusters = current.spec.clusters ∧
    b.spec.propagateDeps = current.spec.propagateDeps := by
  unfold applyClusterPolicyCRBMutate at h
  by_cases hm : ownerMismatch uid current.ownerReferences = true
  · rw [if_pos hm] at h; cases h
  · rw [if_neg hm] at h
    injection h with h2
    subst h2
    exact ⟨rfl, rfl⟩

/-- C1. For every binding upsert performed by `ApplyPolicy` or
`ApplyClusterPolicy` on a pre-existing ResourceBinding or
ClusterResourceBinding, the mutation callback overwrites ownerReferences,
finalizers, merged labels/annotations and the listed spec fields, but
never writes the binding's `spec.clusters`: the scheduling result of a
pre-existing binding is unchanged by every detector-initiated write. -/
theorem binding_upsert_never_writes_clusters :
    (∀ (uid : String) (desired current b : ResourceBinding),
      applyPolicyMutate uid desired current = Except.ok b →
      b.spec.clusters = current.spec.clusters ∧
      b.ownerReferences = desired.ownerReferences ∧
      b.finalizers = desired.finalizers ∧
      b.spec.placement = desired.spec.placement ∧
      b.spec.resource = desired.spec.resource ∧
      b.labels = removeKey (DedupeAndMergeLabels current.labels desired.labels)
        ClusterPropagationPolicyPermanentIDLabel ∧
      b.annotations = DedupeAndMergeAnnotations current.annotations desired.annotations) ∧
    (∀ (uid : String) (desired current b : ResourceBinding),
      applyClusterPolicyRBMutate uid desired current = Except.ok b →
      b.spec.clusters = current.spec.clusters) ∧
    (∀ (uid : String) (desired current b : ClusterResourceBinding),
      applyClusterPolicyCRBMutate uid desired current = Except.ok b →
      b.spec.clusters = current.spec.clusters) ∧
    (∀ (env : ApplyEnv) (object : Unstructured) (rck : Bool)
       (policy : PropagationPolicy) (effs : List Effect) (ns n : String)
       (b : ResourceBinding) (r : OperationResult) (current : ResourceBinding),
      ApplyPolicy env object rck policy = Except.ok effs →
      Effect.rbWrite ns n b r ∈ effs →
      env.existingRB ns n = some current →
      b.spec.clusters = current.spec.clusters) ∧
    (∀ (env : ApplyEnv) (object : Unstructured) (rck : Bool)
       (policy : ClusterPropagationPolicy) (effs : List Effect),
      ApplyClusterPolicy env object rck policy = Except.ok effs →
      (∀ (ns n : String) (b : ResourceBinding) (r : OperationResult)
         (current : ResourceBinding),
        Effect.rbWrite ns n b r ∈ effs →
        env.existingRB ns n = some current →
        b.spec.clusters = current.spec.clusters) ∧
      (∀ (n : String) (b : ClusterResourceBinding) (r : OperationResult)
         (current : ClusterResourceBinding),
        Effect.crbWrite n b r ∈ effs →
        env.existingCRB n = some current →
        b.spec.clusters = current.spec.clusters)) := by
  refine ⟨?_, ?_, ?_, ?_, ?_⟩
  · intro uid desired current b h
    obtain ⟨h1, h2, h3, h4, h5, _, h6, h7⟩ := applyPolicyMutate_ok uid desired current b h
    exact ⟨h1, h2, h3, h4, h5, h6, h7⟩
  · intro uid desired current b h
    exact (applyClusterPolicyRBMutate_ok uid desired current b h).1
  · intro uid desired current b h
    exact (applyClusterPolicyCRBMutate_ok uid desired current b h).1
  · intro env object rck policy effs ns n b r current happ hmem hex
    obtain ⟨ce, hcs, hcase⟩ := ApplyPolicy_ok_shape env object rck policy effs happ
    rcases hcase with ⟨_, heq⟩ | ⟨_, binding, br, _, hco, heq⟩
    · subst heq
      obtain ⟨o, ho⟩ := claimStepPP_effects env object policy effs hcs _ hmem
      exact Effect.noConfusion ho
    · subst heq
      rcases List.mem_append.mp hmem with hl | hr
      · obtain ⟨o, ho⟩ := claimStepPP_effects env object policy ce hcs _ hl
        exact Effect.noConfusion ho
      · rw [List.mem_singleton] at hr
        injection hr with hns hn hb2 hr2
        subst hns
        subst hn
        subst hb2
        rw [hex] at hco
        exact (applyPolicyMutate_ok object.uid binding current br.1
          (createOrUpdate_some_ok current binding _ br hco)).1
  · intro env object rck policy effs happ
    obtain ⟨ce, hcs, hcase⟩ := ApplyClusterPolicy_ok_shape env object rck policy effs happ
    constructor
    · intro ns n b r current hmem hex
      rcases hcase with ⟨_, heq⟩ | ⟨_, hbranch⟩
      · subst heq
        obtain ⟨o, ho⟩ := claimStepCPP_effects env object policy effs hcs _ hmem
        exact Effect.noConfusion ho
      · rcases hbranch with ⟨_, binding, br, _, hco, heq⟩ | ⟨_, binding, br, _, hco, heq⟩
        · subst heq
          rcases List.mem_append.mp hmem with hl | hr
          · obtain ⟨o, ho⟩ := claimStepCPP_effects env object policy ce hcs _ hl
            exact Effect.noConfusion ho
          · rw [List.mem_singleton] at hr
            injection hr with hns hn hb2 hr2
            subst hns
            subst hn
            subst hb2
            rw [hex] at hco
            exact (applyClusterPolicyRBMutate_ok object.uid binding current br.1
              (createOrUpdate_some_ok current binding _ br hco)).1
        · subst heq
          rcases List.mem_append.mp hmem with hl | hr
          · obtain ⟨o, ho⟩ := claimStepCPP_effects env object policy ce hcs _ hl
            exact Effect.noConfusion ho
          · rw [List.mem_singleton] at hr
            exact Effect.noConfusion hr
    · intro n b r current hmem hex
      rcases hcase with ⟨_, heq⟩ | ⟨_, hbranch⟩
      · subst heq
        obtain ⟨o, ho⟩ := claimStepCPP_effects env object policy effs hcs _ hmem
        exact Effect.noConfusion ho
      · rcases hbranch with ⟨_, binding, br, _, hco, heq⟩ | ⟨_, binding, br, _, hco, heq⟩
        · subst heq
          rcases List.mem_append.mp hmem with hl | hr
          · obtain ⟨o, ho⟩ := claimStepCPP_effects env object policy ce hcs _ hl
            exact Effect.noConfusion ho
          · rw [List.mem_singleton] at hr
            exact Effect.noConfusion hr
        · subst heq
          rcases List.mem_append.mp hmem with hl | hr
          · obtain ⟨o, ho⟩ := claimStepCPP_effects env object policy ce hcs _ hl
            exact Effect.noConfusion ho
          · rw [List.mem_singleton] at hr
            injection hr with hn hb2 hr2
            subst hn
            subst hb2
            rw [hex] at hco
            exact (applyClusterPolicyCRBMutate_ok object.uid binding current br.1
              (createOrUpdate_some_ok current binding _ br hco)).1

/-- Witness for C1 at a concrete input: the upsert against a pre-existing
binding carrying `spec.clusters = ["member1"]` leaves that field as it
is. -/
theorem binding_upsert_never_writes_clusters_witness :
    sampleMutatedRB.spec.clusters = sampleCurrentRB.spec.clusters :=
  binding_upsert_never_writes_clusters.2.2.2.1 sampleApplyEnvCurrentRB
    sampleObjectNamespaced false samplePP sampleApplyEffects "default"
    "nginx-Deployment" sampleMutatedRB OperationResult.updated sampleCurrentRB
    (by rfl) (by decide) (by rfl)

/-- C2. For every binding upsert in `ApplyPolicy` and
`ApplyClusterPolicy`, if the existing binding already has a controller
owner reference whose UID differs from the resource template's UID, the
mutation callback returns an error (before touching any field), the write
is refused, and the apply returns that error. -/
theorem owner_uid_mismatch_refuses_write :
    (∀ (uid : String) (desired current : ResourceBinding),
      ownerMismatch uid current.ownerReferences = true →
      applyPolicyMutate uid desired current = Except.error ownerMismatchError ∧
      applyClusterPolicyRBMutate uid desired current = Except.error ownerMismatchError ∧
      createOrUpdate (some current) desired (applyPolicyMutate uid desired)
        = Except.error ownerMismatchError) ∧
    (∀ (uid : String) (desired current : ClusterResourceBinding),
      ownerMismatch uid current.ownerReferences = true →
      applyClusterPolicyCRBMutate uid desired current = Except.error ownerMismatchError ∧
      createOrUpdate (some current) desired (applyClusterPolicyCRBMutate uid desired)
        = Except.error ownerMismatchError) ∧
    (∀ (env : ApplyEnv) (object : Unstructured) (rck : Bool)
       (policy : PropagationPolicy) (current : ResourceBinding),
      (rck && IsLazyActivationEnabled policy.spec.activationPreference) = false →
      env.interp.hookEnabled = false →
      env.existingRB object.ns (GenerateBindingName object.kind object.name)
        = some current →
      ownerMismatch object.uid current.ownerReferences = true →
      env.claimUpdateOk = true →
      ApplyPolicy env object rck policy = Except.error ownerMismatchError) ∧
    (∀ (env : ApplyEnv) (object : Unstructured) (rck : Bool)
       (policy : ClusterPropagationPolicy) (current : ClusterResourceBinding),
      (rck && IsLazyActivationEnabled policy.spec.activationPreference) = false →
      env.interp.hookEnabled = false →
      object.ns = "" →
      env.existingCRB (GenerateBindingName object.kind object.name) = some current →
      ownerMismatch object.uid current.ownerReferences = true →
      env.claimUpdateOk = true →
      ApplyClusterPolicy env object rck policy = Except.error ownerMismatchError) := by
  refine ⟨?_, ?_, ?_, ?_⟩
  · intro uid desired current hm
    refine ⟨?_, ?_, ?_⟩
    · unfold applyPolicyMutate
      rw [if_pos hm]
    · unfold applyClusterPolicyRBMutate
      rw [if_pos hm]
    · exact createOrUpdate_some_error current desired _ _
        (by unfold applyPolicyMutate; rw [if_pos hm])
  · intro uid desired current hm
    refine ⟨?_, ?_⟩
    · unfold applyClusterPolicyCRBMutate
      rw [if_pos hm]
    · exact createOrUpdate_some_error current desired _ _
        (by unfold applyClusterPolicyCRBMutate; rw [if_pos hm])
  · intro env object rck policy current hlazy hhook hex hm hclaim
    unfold ApplyPolicy
    cases hcs : claimStepPP env object policy with
    | error e =>
      exfalso
      unfold claimStepPP at hcs
      cases hcl : (ClaimPolicyForObject object policy).2 with
      | none => rw [hcl] at hcs; cases hcs
      | some o =>
        rw [hcl] at hcs
        dsimp only at hcs
        rw [if_pos hclaim] at hcs
        cases hcs
    | ok ce =>
      dsimp only
      rw [if_neg (by simp [hlazy])]
      cases hb : BuildResourceBinding env.interp object
          [(PropagationPolicyPermanentIDLabel, (ClaimPolicyForObject object policy).1)]
          [(PropagationPolicyNamespaceAnnotationKey, policy.ns),
           (PropagationPolicyNameAnnotationKey, policy.name)] policy.spec with
      | error e =>
        exfalso
        unfold BuildResourceBinding at hb
        rw [if_neg (by simp [hhook])] at hb
        cases hb
      | ok binding =>
        dsimp only
        obtain ⟨hbns, hbname, _, _, _, _⟩ := BuildResourceBinding_meta _ _ _ _ _ _ hb
        rw [hbns, hbname, hex,
          createOrUpdate_some_error current binding _ _
            (by unfold applyPolicyMutate; rw [if_pos hm])]
  · intro env object rck policy current hlazy hhook hns hex hm hclaim
    unfold ApplyClusterPolicy
    cases hcs : claimStepCPP env object policy with
    | error e =>
      exfalso
      unfold claimStepCPP at hcs
      cases hcl : (ClaimClusterPolicyForObject object policy).2 with
      | none => rw [hcl] at hcs; cases hcs
      | some o =>
        rw [hcl] at hcs
        dsimp only at hcs
        rw [if_pos hclaim] at hcs
        cases hcs
    | ok ce =>
      dsimp only
      rw [if_neg (by simp [hlazy])]
      rw [if_neg (by simp [hns])]
      cases hb : BuildClusterResourceBinding env.interp object
          [(ClusterPropagationPolicyPermanentIDLabel,
            (ClaimClusterPolicyForObject object policy).1)]
          [(ClusterPropagationPolicyAnnotationKey, policy.name)] policy.spec with
      | error e =>
        exfalso
        unfold BuildClusterResourceBinding at hb
        rw [if_neg (by simp [hhook])] at hb
        cases hb
      | ok binding =>
        dsimp only
        obtain ⟨hbname, _, _, _, _⟩ := BuildClusterResourceBinding_meta _ _ _ _ _ _ hb
        rw [hbname, hex,
          createOrUpdate_some_error current binding _ _
            (by unfold applyClusterPolicyCRBMutate; rw [if_pos hm])]

/-- Witness for C2 at a concrete input: applying to a stale pre-existing
binding owned by `stale-uid` while the live template carries `uid-1` is
refused. -/
theorem owner_uid_mismatch_refuses_write_witness :
    ApplyPolicy sampleApplyEnvStaleRB sampleObjectNamespaced false samplePP
      = Except.error ownerMismatchError :=
  owner_uid_mismatch_refuses_write.2.2.1 sampleApplyEnvStaleRB
    sampleObjectNamespaced false samplePP sampleStaleRB
    (by decide) (by rfl) (by rfl) (by decide) (by rfl)

/-- C5. When the triggering change was made by Karmada itself
(`ResourceChangeByKarmada=true`) and the bound policy's
activationPreference is Lazy, `ApplyPolicy` and `ApplyClusterPolicy`
claim the policy on the resource template and return success without
building or upserting the binding: every effect of the call is a template
update, never a binding write. -/
theorem lazy_gate_skips_binding_refresh :
    (∀ (env : ApplyEnv) (object : Unstructured) (policy : PropagationPolicy)
       (ce : List Effect),
      IsLazyActivationEnabled policy.spec.activationPreference = true →
      claimStepPP env object policy = Except.ok ce →
      ApplyPolicy env object true policy = Except.ok ce ∧
      ∀ e ∈ ce, e.isBindingWrite = false) ∧
    (∀ (env : ApplyEnv) (object : Unstructured) (policy : ClusterPropagationPolicy)
       (ce : List Effect),
      IsLazyActivationEnabled policy.spec.activationPreference = true →
      claimStepCPP env object policy = Except.ok ce →
      ApplyClusterPolicy env object true policy = Except.ok ce ∧
      ∀ e ∈ ce, e.isBindingWrite = false) := by
  constructor
  · intro env object policy ce hlazy hcs
    constructor
    · unfold ApplyPolicy
      rw [hcs]
      dsimp only
      rw [if_pos (by simp [hlazy])]
    · intro e he
      obtain ⟨o, ho⟩ := claimStepPP_effects env object policy ce hcs e he
      subst ho
      rfl
  · intro env object policy ce hlazy hcs
    constructor
    · unfold ApplyClusterPolicy
      rw [hcs]
      dsimp only
      rw [if_pos (by simp [hlazy])]
    · intro e he
      obtain ⟨o, ho⟩ := claimStepCPP_effects env object policy ce hcs e he
      subst ho
      rfl

/-- Witness for C5 at a concrete input: with a Lazy policy and a
Karmada-originated change, the apply returns exactly the claim's template
update and nothing else. -/
theorem lazy_gate_skips_binding_refresh_witness :
    ApplyPolicy sampleApplyEnv sampleObjectNamespaced true sampleLazyPP
      = Except.ok sampleLazyClaimEffects :=
  (lazy_gate_skips_binding_refresh.1 sampleApplyEnv sampleObjectNamespaced
    sampleLazyPP sampleLazyClaimEffects (by decide) (by rfl)).1

/-- C7. For every successful `ApplyClusterPolicy`, the scope of the
produced binding is determined by the resource template's namespace: a
namespaced template yields a ResourceBinding in the template's namespace
(never a ClusterResourceBinding), and a cluster-scoped template yields a
ClusterResourceBinding (never a ResourceBinding); when the lazy gate is
not taken, the corresponding write is actually present. -/
theorem cluster_policy_binding_scope :
    (∀ (env : ApplyEnv) (object : Unstructured) (rck : Bool)
       (policy : ClusterPropagationPolicy) (effs : List Effect),
      ApplyClusterPolicy env object rck policy = Except.ok effs →
      (object.ns ≠ "" →
        (∀ (n : String) (b : ClusterResourceBinding) (r : OperationResult),
          Effect.crbWrite n b r ∉ effs) ∧
        (∀ (ns n : String) (b : ResourceBinding) (r : OperationResult),
          Effect.rbWrite ns n b r ∈ effs →
          ns = object.ns ∧ n = GenerateBindingName object.kind object.name)) ∧
      (object.ns = "" →
        ∀ (ns n : String) (b : ResourceBinding) (r : OperationResult),
          Effect.rbWrite ns n b r ∉ effs)) ∧
    (∀ (env : ApplyEnv) (object : Unstructured) (rck : Bool)
       (policy : ClusterPropagationPolicy) (effs : List Effect),
      ApplyClusterPolicy env object rck policy = Except.ok effs →
      (rck && IsLazyActivationEnabled policy.spec.activationPreference) = false →
      (object.ns ≠ "" → ∃ b r,
        Effect.rbWrite object.ns (GenerateBindingName object.kind object.name) b r
          ∈ effs) ∧
      (object.ns = "" → ∃ b r,
        Effect.crbWrite (GenerateBindingName object.kind object.name) b r ∈ effs)) := by
  constructor
  · intro env object rck policy effs happ
    obtain ⟨ce, hcs, hcase⟩ := ApplyClusterPolicy_ok_shape env object rck policy effs happ
    constructor
    · intro hns
      constructor
      · intro n b r hmem
        rcases hcase with ⟨_, heq⟩ | ⟨_, hbranch⟩
        · subst heq
          obtain ⟨o, ho⟩ := claimStepCPP_effects env object policy effs hcs _ hmem
          exact Effect.noConfusion ho
        · rcases hbranch with ⟨_, binding, br, _, _, heq⟩ | ⟨hns2, _, _, _, _, _⟩
          · subst heq
            rcases List.mem_append.mp hmem with hl | hr
            · obtain ⟨o, ho⟩ := claimStepCPP_effects env object policy ce hcs _ hl
              exact Effect.noConfusion ho
            · rw [List.mem_singleton] at hr
              exact Effect.noConfusion hr
          · exact hns hns2
      · intro ns n b r hmem
        rcases hcase with ⟨_, heq⟩ | ⟨_, hbranch⟩
        · subst heq
          obtain ⟨o, ho⟩ := claimStepCPP_effects env object policy effs hcs _ hmem
          exact Effect.noConfusion ho
        · rcases hbranch with ⟨_, binding, br, hb, _, heq⟩ | ⟨hns2, _, _, _, _, _⟩
          · subst heq
            rcases List.mem_append.mp hmem with hl | hr
            · obtain ⟨o, ho⟩ := claimStepCPP_effects env object policy ce hcs _ hl
              exact Effect.noConfusion ho
            · rw [List.mem_singleton] at hr
              injection hr with hns3 hn3 _ _
              obtain ⟨hbns, hbname, _, _, _, _⟩ := BuildResourceBinding_meta _ _ _ _ _ _ hb
              exact ⟨hns3.trans hbns, hn3.trans hbname⟩
          · exact absurd hns2 hns
    · intro hns ns n b r hmem
      rcases hcase with ⟨_, heq⟩ | ⟨_, hbranch⟩
      · subst heq
        obtain ⟨o, ho⟩ := claimStepCPP_effects env object policy effs hcs _ hmem
        exact Effect.noConfusion ho
      · rcases hbranch with ⟨hns2, _, _, _, _, _⟩ | ⟨_, binding, br, _, _, heq⟩
        · exact hns2 hns
        · subst heq
          rcases List.mem_append.mp hmem with hl | hr
          · obtain ⟨o, ho⟩ := claimStepCPP_effects env object policy ce hcs _ hl
            exact Effect.noConfusion ho
          · rw [List.mem_singleton] at hr
            exact Effect.noConfusion hr
  · intro env object rck policy effs happ hlazy
    obtain ⟨ce, hcs, hcase⟩ := ApplyClusterPolicy_ok_shape env object rck policy effs happ
    rcases hcase with ⟨hl, _⟩ | ⟨_, hbranch⟩
    · rw [hl] at hlazy
      cases hlazy
    · constructor
      · intro hns
        rcases hbranch with ⟨_, binding, br, hb, _, heq⟩ | ⟨hns2, _, _, _, _, _⟩
        · subst heq
          obtain ⟨hbns, hbname, _, _, _, _⟩ := BuildResourceBinding_meta _ _ _ _ _ _ hb
          refine ⟨br.1, br.2, ?_⟩
          rw [← hbns, ← hbname]
          exact List.mem_append.mpr (Or.inr (List.mem_singleton.mpr rfl))
        · exact absurd hns2 hns
      · intro hns
        rcases hbranch with ⟨hns2, _, _, _, _, _⟩ | ⟨_, binding, br, hb, _, heq⟩
        · exact absurd hns hns2
        · subst heq
          obtain ⟨hbname, _, _, _, _⟩ := BuildClusterResourceBinding_meta _ _ _ _ _ _ hb
          refine ⟨br.1, br.2, ?_⟩
          rw [← hbname]
          exact List.mem_append.mpr (Or.inr (List.mem_singleton.mpr rfl))

/-- Witness for C7 at a concrete input: a namespaced template applied via a
ClusterPropagationPolicy never produces a ClusterResourceBinding write. -/
theorem cluster_policy_binding_scope_witness :
    Effect.crbWrite "nginx-Deployment" sampleStaleCRB OperationResult.created
      ∉ sampleCPPApplyEffects :=
  ((cluster_policy_binding_scope.1 sampleApplyEnv sampleObjectNamespaced false
    sampleCPP sampleCPPApplyEffects (by rfl)).1 (by decide)).1
    "nginx-Deployment" sampleStaleCRB OperationResult.created

/-- C8 counterexample. The claim "the policy's propagateDeps value is
not copied into a CRB" fails on the code: `BuildClusterResourceBinding`
(detector.go:807) copies `policySpec.PropagateDeps` into the built CRB,
and the create path of `ApplyClusterPolicy` persists it: with a policy
whose `propagateDeps = true`, the freshly created CRB carries
`spec.propagateDeps = true`. -/
theorem crb_propagatedeps_copied_counterexample :
    (BuildClusterResourceBinding sampleInterp sampleObjectClusterScoped [] []
        samplePolicySpec).map (fun b => b.spec.propagateDeps) = Except.ok true ∧
    samplePolicySpec.propagateDeps = true ∧
    sampleCRBCreateEffects.filterMap Effect.crbPropagateDeps = [true] :=
  ⟨by rfl, by rfl, by rfl⟩

/-- C8 amended. Only the CRB *update* mutation callback omits
PropagateDeps: when upserting a pre-existing ClusterResourceBinding, the
policy's propagateDeps is not written (the existing value persists),
whereas the two ResourceBinding callbacks copy it from the built binding;
the builders themselves copy the policy's propagateDeps into both RB and
CRB. -/
theorem crb_update_callback_omits_propagatedeps :
    (∀ (uid : String) (desired current b : ClusterResourceBinding),
      applyClusterPolicyCRBMutate uid desired current = Except.ok b →
      b.spec.propagateDeps = current.spec.propagateDeps) ∧
    (∀ (uid : String) (desired current b : ResourceBinding),
      applyPolicyMutate uid desired current = Except.ok b →
      b.spec.propagateDeps = desired.spec.propagateDeps) ∧
    (∀ (uid : String) (desired current b : ResourceBinding),
      applyClusterPolicyRBMutate uid desired current = Except.ok b →
      b.spec.propagateDeps = desired.spec.propagateDeps) ∧
    (∀ (interp : InterpEnv) (object : Unstructured) (l a : LabelMap)
       (ps : PropagationSpec) (b : ResourceBinding),
      BuildResourceBinding interp object l a ps = Except.ok b →
      b.spec.propagateDeps = ps.propagateDeps) ∧
    (∀ (interp : InterpEnv) (object : Unstructured) (l a : LabelMap)
       (ps : PropagationSpec) (b : ClusterResourceBinding),
      BuildClusterResourceBinding interp object l a ps = Except.ok b →
      b.spec.propagateDeps = ps.propagateDeps) := by
  refine ⟨?_, ?_, ?_, ?_, ?_⟩
  · intro uid desired current b h
    exact (applyClusterPolicyCRBMutate_ok uid desired current b h).2
  · intro uid desired current b h
    exact (applyPolicyMutate_ok uid desired current b h).2.2.2.2.2.1
  · intro uid desired current b h
    exact (applyClusterPolicyRBMutate_ok uid desired current b h).2
  · intro interp object l a ps b h
    exact (BuildResourceBinding_meta interp object l a ps b h).2.2.1
  · intro interp object l a ps b h
    exact (BuildClusterResourceBinding_meta interp object l a ps b h).2.1

/-- Witness for the amended C8 at a concrete input: updating a CRB whose
stored `propagateDeps` is `false` from a desired binding carrying `true`
leaves `false` in place. -/
theorem crb_update_callback_omits_propagatedeps_witness :
    sampleMutatedCRB.spec.propagateDeps = sampleCurrentCRB.spec.propagateDeps :=
  crb_update_callback_omits_propagatedeps.1 "uid-2" sampleDesiredCRB
    sampleCurrentCRB sampleMutatedCRB (by rfl)

/-- The chunk a list element contributes to a `flatMap` is an infix of the
whole. -/
theorem flatMap_infix {α β : Type} (f : α → List β) (l : List α) (a : α)
    (h : a ∈ l) : ∃ pre post, l.flatMap f = pre ++ (f a ++ post) := by
  induction l with
  | nil => cases h
  | cons x xs ih =>
    rcases List.mem_cons.mp h with hx | hx
    · subst hx
      exact ⟨[], xs.flatMap f, by simp⟩
    · obtain ⟨pre, post, hp⟩ := ih hx
      exact ⟨f x ++ pre, post, by simp [hp]⟩

/-- A middle chunk is a sublist of the surrounding concatenation. -/
theorem sublist_of_mid {β : Type} (pre mid post : List β) :
    List.Sublist mid (pre ++ (mid ++ post)) :=
  (List.sublist_append_left mid post).trans (List.sublist_append_right pre _)

/-- The two RB cleanup steps are the same function. -/
theorem cppDeletionRBStep_eq_ppDeletionStep (env : CleanupEnv) (b : ResourceBinding) :
    cppDeletionRBStep env b = ppDeletionStep env b := rfl

/-- A binding-mark removal in an RB cleanup step forces a preceding
successful template-mark removal, and fixes the whole step. -/
theorem ppDeletionStep_mem_cleanRB (env : CleanupEnv) (b : ResourceBinding)
    (ns n : String) (ref : ObjectReference) (ok : Bool)
    (h : CleanupEvent.cleanRB ns n ref ok ∈ (ppDeletionStep env b).1) :
    env.rtCleanupOk ref = true ∧
    (ppDeletionStep env b).1
      = [CleanupEvent.cleanRT ref true, CleanupEvent.cleanRB ns n ref ok] := by
  by_cases hrt : env.rtCleanupOk b.spec.resource = true
  · have hstep : (ppDeletionStep env b).1
        = [CleanupEvent.cleanRT b.spec.resource true,
           CleanupEvent.cleanRB b.ns b.name b.spec.resource
             (env.rbCleanupOk b.ns b.name)] := by
      unfold ppDeletionStep
      rw [if_pos hrt]
    rw [hstep] at h
    rcases List.mem_cons.mp h with hx | hx
    · exact CleanupEvent.noConfusion hx
    · rw [List.mem_singleton] at hx
      injection hx with h1 h2 h3 h4
      subst h1; subst h2; subst h3; subst h4
      exact ⟨hrt, hstep⟩
  · have hstep : (ppDeletionStep env b).1
        = [CleanupEvent.cleanRT b.spec.resource false] := by
      unfold ppDeletionStep
      rw [if_neg hrt]
    rw [hstep] at h
    rw [List.mem_singleton] at h
    exact CleanupEvent.noConfusion h

/-- An RB cleanup step never touches a ClusterResourceBinding. -/
theorem ppDeletionStep_no_cleanCRB (env : CleanupEnv) (b : ResourceBinding)
    (n : String) (ref : ObjectReference) (ok : Bool) :
    CleanupEvent.cleanCRB n ref ok ∉ (ppDeletionStep env b).1 := by
  intro h
  by_cases hrt : env.rtCleanupOk b.spec.resource = true
  · have hstep : (ppDeletionStep env b).1
        = [CleanupEvent.cleanRT b.spec.resource true,
           CleanupEvent.cleanRB b.ns b.name b.spec.resource
             (env.rbCleanupOk b.ns b.name)] := by
      unfold ppDeletionStep
      rw [if_pos hrt]
    rw [hstep] at h
    rcases List.mem_cons.mp h with hx | hx
    · exact CleanupEvent.noConfusion hx
    · rw [List.mem_singleton] at hx
      exact CleanupEvent.noConfusion hx
  · have hstep : (ppDeletionStep env b).1
        = [CleanupEvent.cleanRT b.spec.resource false] := by
      unfold ppDeletionStep
      rw [if_neg hrt]
    rw [hstep] at h
    rw [List.mem_singleton] at h
    exact CleanupEvent.noConfusion h

/-- A CRB-mark removal in a CRB cleanup step forces a preceding successful
template-mark removal, and fixes the whole step. -/
theorem cppDeletionCRBStep_mem_cleanCRB (env : CleanupEnv)
    (b : ClusterResourceBinding) (n : String) (ref : ObjectReference) (ok : Bool)
    (h : CleanupEvent.cleanCRB n ref ok ∈ (cppDeletionCRBStep env b).1) :
    env.rtCleanupOk ref = true ∧
    (cppDeletionCRBStep env b).1
      = [CleanupEvent.cleanRT ref true, CleanupEvent.cleanCRB n ref ok] := by
  by_cases hrt : env.rtCleanupOk b.spec.resource = true
  · have hstep : (cppDeletionCRBStep env b).1
        = [CleanupEvent.cleanRT b.spec.resource true,
           CleanupEvent.cleanCRB b.name b.spec.resource (env.crbCleanupOk b.name)] := by
      unfold cppDeletionCRBStep
      rw [if_pos hrt]
    rw [hstep] at h
    rcases List.mem_cons.mp h with hx | hx
    · exact CleanupEvent.noConfusion hx
    · rw [List.mem_singleton] at hx
      injection hx with h1 h2 h3
      subst h1; subst h2; subst h3
      exact ⟨hrt, hstep⟩
  · have hstep : (cppDeletionCRBStep env b).1
        = [CleanupEvent.cleanRT b.spec.resource false] := by
      unfold cppDeletionCRBStep
      rw [if_neg hrt]
    rw [hstep] at h
    rw [List.mem_singleton] at h
    exact CleanupEvent.noConfusion h

/-- A CRB cleanup step never touches a ResourceBinding. -/
theorem cppDeletionCRBStep_no_cleanRB (env : CleanupEnv)
    (b : ClusterResourceBinding) (ns n : String) (ref : ObjectReference) (ok : Bool) :
    CleanupEvent.cleanRB ns n ref ok ∉ (cppDeletionCRBStep env b).1 := by
  intro h
  by_cases hrt : env.rtCleanupOk b.spec.resource = true
  · have hstep : (cppDeletionCRBStep env b).1
        = [CleanupEvent.cleanRT b.spec.resource true,
           CleanupEvent.cleanCRB b.name b.spec.resource (env.crbCleanupOk b.name)] := by
      unfold cppDeletionCRBStep
      rw [if_pos hrt]
    rw [hstep] at h
    rcases List.mem_cons.mp h with hx | hx
    · exact CleanupEvent.noConfusion hx
    · rw [List.mem_singleton] at hx
      exact CleanupEvent.noConfusion hx
  · have hstep : (cppDeletionCRBStep env b).1
        = [CleanupEvent.cleanRT b.spec.resource false] := by
      unfold cppDeletionCRBStep
      rw [if_neg hrt]
    rw [hstep] at h
    rw [List.mem_singleton] at h
    exact CleanupEvent.noConfusion h

/-- The CPP deletion trace is the CRB part followed by the RB part. -/
theorem cppDeletion_trace (env : CleanupEnv)
    (crbsResult : Except String (List ClusterResourceBinding))
    (rbsResult : Except String (List ResourceBinding)) :
    (HandleClusterPropagationPolicyDeletion env crbsResult rbsResult).1
      = (match crbsResult with
         | Except.error _ => []
         | Except.ok crbs => crbs.flatMap (fun b => (cppDeletionCRBStep env b).1)) ++
        (match rbsResult with
         | Except.error _ => []
         | Except.ok rbs => rbs.flatMap (fun b => (cppDeletionRBStep env b).1)) := by
  cases crbsResult <;> cases rbsResult <;> rfl

/-- C4. During policy-deletion cleanup, for every binding labeled with
the deleted policy's permanent ID, the identity marks are removed from the
referenced resource template strictly before they are removed from the
RB/CRB, and never in the reverse order; when the mark removal on the
template fails, the mark removal on that binding is skipped for that
iteration (a binding-mark removal event in the trace implies the
template-mark removal succeeded and precedes it). -/
theorem marks_removed_from_template_first :
    (∀ (env : CleanupEnv) (rbsResult : Except String (List ResourceBinding))
       (ns n : String) (ref : ObjectReference) (ok : Bool),
      CleanupEvent.cleanRB ns n ref ok ∈ (HandlePropagationPolicyDeletion env rbsResult).1 →
      env.rtCleanupOk ref = true ∧
      List.Sublist [CleanupEvent.cleanRT ref true, CleanupEvent.cleanRB ns n ref ok]
        (HandlePropagationPolicyDeletion env rbsResult).1) ∧
    (∀ (env : CleanupEnv) (crbsResult : Except String (List ClusterResourceBinding))
       (rbsResult : Except String (List ResourceBinding))
       (ns n : String) (ref : ObjectReference) (ok : Bool),
      CleanupEvent.cleanRB ns n ref ok
          ∈ (HandleClusterPropagationPolicyDeletion env crbsResult rbsResult).1 →
      env.rtCleanupOk ref = true ∧
      List.Sublist [CleanupEvent.cleanRT ref true, CleanupEvent.cleanRB ns n ref ok]
        (HandleClusterPropagationPolicyDeletion env crbsResult rbsResult).1) ∧
    (∀ (env : CleanupEnv) (crbsResult : Except String (List ClusterResourceBinding))
       (rbsResult : Except String (List ResourceBinding))
       (n : String) (ref : ObjectReference) (ok : Bool),
      CleanupEvent.cleanCRB n ref ok
          ∈ (HandleClusterPropagationPolicyDeletion env crbsResult rbsResult).1 →
      env.rtCleanupOk ref = true ∧
      List.Sublist [CleanupEvent.cleanRT ref true, CleanupEvent.cleanCRB n ref ok]
        (HandleClusterPropagationPolicyDeletion env crbsResult rbsResult).1) := by
  refine ⟨?_, ?_, ?_⟩
  · intro env rbsResult ns n ref ok h
    cases rbsResult with
    | error e => simp [HandlePropagationPolicyDeletion] at h
    | ok rbs =>
      have htr : (HandlePropagationPolicyDeletion env (Except.ok rbs)).1
          = rbs.flatMap (fun b => (ppDeletionStep env b).1) := rfl
      rw [htr] at h ⊢
      obtain ⟨b, hb, hmem⟩ := List.mem_flatMap.mp h
      obtain ⟨hrt, hstep⟩ := ppDeletionStep_mem_cleanRB env b ns n ref ok hmem
      refine ⟨hrt, ?_⟩
      obtain ⟨pre, post, hp⟩ := flatMap_infix (fun b => (ppDeletionStep env b).1) rbs b hb
      rw [hp, ← hstep]
      exact sublist_of_mid _ _ _
  · intro env crbsResult rbsResult ns n ref ok h
    rw [cppDeletion_trace] at h ⊢
    rcases List.mem_append.mp h with hc | hr
    · exfalso
      cases crbsResult with
      | error e => simp at hc
      | ok crbs =>
        obtain ⟨b, hb, hmem⟩ := List.mem_flatMap.mp hc
        exact cppDeletionCRBStep_no_cleanRB env b ns n ref ok hmem
    · cases rbsResult with
      | error e => simp at hr
      | ok rbs =>
        obtain ⟨b, hb, hmem⟩ := List.mem_flatMap.mp hr
        rw [cppDeletionRBStep_eq_ppDeletionStep] at hmem
        obtain ⟨hrt, hstep⟩ := ppDeletionStep_mem_cleanRB env b ns n ref ok hmem
        refine ⟨hrt, ?_⟩
        obtain ⟨pre, post, hp⟩ :=
          flatMap_infix (fun b => (cppDeletionRBStep env b).1) rbs b hb
        dsimp only
        rw [hp]
        have hstep2 : (cppDeletionRBStep env b).1
            = [CleanupEvent.cleanRT ref true, CleanupEvent.cleanRB ns n ref ok] := by
          rw [cppDeletionRBStep_eq_ppDeletionStep]
          exact hstep
        rw [← hstep2]
        exact ((List.sublist_append_left _ post).trans
          (List.sublist_append_right pre _)).trans
          (List.sublist_append_right _ _)
  · intro env crbsResult rbsResult n ref ok h
    rw [cppDeletion_trace] at h ⊢
    rcases List.mem_append.mp h with hc | hr
    · cases crbsResult with
      | error e => simp at hc
      | ok crbs =>
        obtain ⟨b, hb, hmem⟩ := List.mem_flatMap.mp hc
        obtain ⟨hrt, hstep⟩ := cppDeletionCRBStep_mem_cleanCRB env b n ref ok hmem
        refine ⟨hrt, ?_⟩
        obtain ⟨pre, post, hp⟩ :=
          flatMap_infix (fun b => (cppDeletionCRBStep env b).1) crbs b hb
        dsimp only
        rw [hp, ← hstep]
        exact (sublist_of_mid _ _ _).trans (List.sublist_append_left _ _)
    · exfalso
      cases rbsResult with
      | error e => simp at hr
      | ok rbs =>
        obtain ⟨b, hb, hmem⟩ := List.mem_flatMap.mp hr
        rw [cppDeletionRBStep_eq_ppDeletionStep] at hmem
        exact ppDeletionStep_no_cleanCRB env b n ref ok hmem

/-- Witness for C4 at a concrete input: in a cleanup over one labeled
binding, the binding-mark removal is preceded by a successful
template-mark removal. -/
theorem marks_removed_from_template_first_witness :
    sampleCleanupEnv.rtCleanupOk sampleRef = true ∧
    List.Sublist
      [CleanupEvent.cleanRT sampleRef true,
       CleanupEvent.cleanRB "default" "nginx-Deployment" sampleRef true]
      (HandlePropagationPolicyDeletion sampleCleanupEnv
        (Except.ok [sampleLabeledRB])).1 :=
  marks_removed_from_template_first.1 sampleCleanupEnv
    (Except.ok [sampleLabeledRB]) "default" "nginx-Deployment" sampleRef true
    (by decide)

/-- C6. For every template reconcile where the fetched resource
template carries a non-empty ClaimedBy label value, `Reconcile` removes
the template's cluster-wide key from the waiting set and returns success
without matching any policy, claiming, or writing any binding: the
propagation path is never entered, for every possible behaviour of it. -/
theorem external_claim_respected :
    ∀ (env : ReconcileEnv) (waiting : WaitingSet) (kc : ClusterWideKeyWithConfig)
      (object : Unstructured),
      env.getObject kc.key = FetchOutcome.found object →
      getVal object.labels ResourceTemplateClaimedByLabel ≠ "" →
      Reconcile env waiting (QueueKey.rtItem kc)
        = { result := Except.ok (), waiting := RemoveWaiting waiting kc.key,
            propagateCalled := false } := by
  intro env waiting kc object hfetch hclaimed
  unfold Reconcile
  dsimp only
  rw [hfetch]
  dsimp only
  rw [if_pos hclaimed]

/-- Witness for C6 at a concrete input: a template labeled as claimed by a
third party is dropped from the waiting set and succeeds, whatever the
propagation path would have done. -/
theorem external_claim_respected_witness :
    Reconcile sampleReconcileEnvClaimed [sampleCWK]
        (QueueKey.rtItem { key := sampleCWK, resourceChangeByKarmada := false })
      = { result := Except.ok (), waiting := RemoveWaiting [sampleCWK] sampleCWK,
          propagateCalled := false } :=
  external_claim_respected sampleReconcileEnvClaimed [sampleCWK]
    { key := sampleCWK, resourceChangeByKarmada := false }
    sampleClaimedExternally (by rfl) (by decide)

/-- C9 counterexample. The claim that an unexpected queue-key type is
"dropped without retry" fails on the code: every reconciler returns a
non-nil error for an invalid key (detector.go:247, 951, 1052), and under
the async worker contract (§4.9) a returned error re-adds the key with
rate-limited delay — the disposition is not "forgotten". -/
theorem invalid_key_dropped_counterexample :
    (Reconcile sampleReconcileEnvClaimed [] (QueueKey.cwk sampleCWK)).result
        = Except.error "invalid key" ∧
    workerDisposition (Reconcile sampleReconcileEnvClaimed []
        (QueueKey.cwk sampleCWK)).result ≠ WorkerDisposition.forgotten ∧
    (ReconcilePropagationPolicy samplePPReconcileEnv []
        (QueueKey.rtItem { key := sampleCWK, resourceChangeByKarmada := false })).result
        = Except.error "invalid key" ∧
    (ReconcileClusterPropagationPolicy sampleCPPReconcileEnv []
        (QueueKey.raw "bogus")).result = Except.error "invalid key" :=
  ⟨by rfl, by decide, by rfl, by rfl⟩

/-- C9 amended. For every queue item whose key is not of the
reconciler's expected key type, the reconciler logs the problem and
returns an error, so under the worker contract (§4.9) the item re-enters
the rate-limited retry path instead of being dropped. -/
theorem invalid_key_returns_error :
    (∀ (env : ReconcileEnv) (waiting : WaitingSet) (key : QueueKey),
      (∀ kc, key ≠ QueueKey.rtItem kc) →
      (Reconcile env waiting key).result = Except.error "invalid key" ∧
      workerDisposition (Reconcile env waiting key).result
        = WorkerDisposition.requeued) ∧
    (∀ (env : PPReconcileEnv) (waiting : WaitingSet) (key : QueueKey),
      (∀ ck, key ≠ QueueKey.cwk ck) →
      (ReconcilePropagationPolicy env waiting key).result
        = Except.error "invalid key" ∧
      workerDisposition (ReconcilePropagationPolicy env waiting key).result
        = WorkerDisposition.requeued) ∧
    (∀ (env : CPPReconcileEnv) (waiting : WaitingSet) (key : QueueKey),
      (∀ ck, key ≠ QueueKey.cwk ck) →
      (ReconcileClusterPropagationPolicy env waiting key).result
        = Except.error "invalid key" ∧
      workerDisposition (ReconcileClusterPropagationPolicy env waiting key).result
        = WorkerDisposition.requeued) := by
  refine ⟨?_, ?_, ?_⟩
  · intro env waiting key hk
    cases key with
    | rtItem kc => exact absurd rfl (hk kc)
    | cwk ck => exact ⟨rfl, rfl⟩
    | raw s => exact ⟨rfl, rfl⟩
  · intro env waiting key hk
    cases key with
    | rtItem kc => exact ⟨rfl, rfl⟩
    | cwk ck => exact absurd rfl (hk ck)
    | raw s => exact ⟨rfl, rfl⟩
  · intro env waiting key hk
    cases key with
    | rtItem kc => exact ⟨rfl, rfl⟩
    | cwk ck => exact absurd rfl (hk ck)
    | raw s => exact ⟨rfl, rfl⟩

/-- Witness for the amended C9 at a concrete input. -/
theorem invalid_key_returns_error_witness :
    (Reconcile sampleReconcileEnvClaimed [] (QueueKey.raw "bogus")).result
        = Except.error "invalid key" ∧
    workerDisposition (Reconcile sampleReconcileEnvClaimed []
        (QueueKey.raw "bogus")).result = WorkerDisposition.requeued :=
  invalid_key_returns_error.1 sampleReconcileEnvClaimed [] (QueueKey.raw "bogus")
    (fun _ h => QueueKey.noConfusion h)

/-- Everything the derived-binding fanout enqueues is tagged `derived`. -/
theorem enqueueDerivedKeys_derived (refs : List ObjectReference) :
    ∀ e ∈ (enqueueDerivedKeys refs).1, e.isDerived = true := by
  induction refs with
  | nil => intro e he; cases he
  | cons ref rest ih =>
    intro e he
    unfold enqueueDerivedKeys at he
    cases hk : ConstructClusterWideKey ref with
    | error err => rw [hk] at he; cases he
    | ok k =>
      rw [hk] at he
      dsimp only at he
      rcases List.mem_cons.mp he with hx | hx
      · subst hx; rfl
      · exact ih e hx

/-- C10. When the policy creation/update handler finds at least one
matching waiting-set key but the policy's dependent overrides are not
present (or the presence check errors), it returns an error before
removing any matched key from the waiting set and before enqueueing any
matched key onto the template queue: the waiting set is unchanged and the
enqueued items are exactly the derived-binding fanout (all tagged
`derived`, never `matched`). -/
theorem overrides_missing_keeps_waiting :
    (∀ (env : PPUpdateEnv) (waiting : WaitingSet) (policy : PropagationPolicy)
       (rbs : List ResourceBinding),
      env.cleanUnmatchedResult = Except.ok () →
      env.derivedRBsResult = Except.ok rbs →
      (enqueueDerivedKeys (rbs.map fun rb => rb.spec.resource)).2 = none →
      GetMatching env.fetchRT waiting policy.spec.resourceSelectors ≠ [] →
      (∀ present, env.overridesPresent = Except.ok present → present = false) →
      HandlePropagationPolicyCreationOrUpdate env waiting policy
        = { result := Except.error "waiting for dependent overrides",
            waiting := waiting,
            enqueued := (enqueueDerivedKeys (rbs.map fun rb => rb.spec.resource)).1 }) ∧
    (∀ (env : CPPUpdateEnv) (waiting : WaitingSet) (policy : ClusterPropagationPolicy)
       (rbs : List ResourceBinding) (crbs : List ClusterResourceBinding),
      env.cleanUnmatchedRBResult = Except.ok () →
      env.cleanUnmatchedCRBResult = Except.ok () →
      env.derivedRBsResult = Except.ok rbs →
      env.derivedCRBsResult = Except.ok crbs →
      (enqueueDerivedKeys (rbs.map fun rb => rb.spec.resource)).2 = none →
      (enqueueDerivedKeys (crbs.map fun crb => crb.spec.resource)).2 = none →
      GetMatching env.fetchRT waiting policy.spec.resourceSelectors ≠ [] →
      (∀ present, env.overridesPresent = Except.ok present → present = false) →
      HandleClusterPropagationPolicyCreationOrUpdate env waiting policy
        = { result := Except.error "waiting for dependent overrides",
            waiting := waiting,
            enqueued := (enqueueDerivedKeys (rbs.map fun rb => rb.spec.resource)).1
              ++ (enqueueDerivedKeys (crbs.map fun crb => crb.spec.resource)).1 }) ∧
    (∀ (refs : List ObjectReference) (e : EnqueuedItem),
      e ∈ (enqueueDerivedKeys refs).1 → e.isDerived = true) := by
  refine ⟨?_, ?_, ?_⟩
  · intro env waiting policy rbs hclean hder hfan hmk hpres
    unfold HandlePropagationPolicyCreationOrUpdate
    rw [hclean]
    dsimp only
    rw [hder]
    dsimp only
    rw [hfan]
    dsimp only
    have homb : (decide
          ((GetMatching env.fetchRT waiting policy.spec.resourceSelectors).length > 0) &&
        (match env.overridesPresent with
         | Except.error _ => true
         | Except.ok present => !present)) = true := by
      cases hov : env.overridesPresent with
      | error e => simp [List.length_pos.mpr hmk]
      | ok present =>
        have hp := hpres present hov
        subst hp
        simp [List.length_pos.mpr hmk]
    rw [if_pos homb]
  · intro env waiting policy rbs crbs hcleanRB hcleanCRB hderRB hderCRB
      hfanRB hfanCRB hmk hpres
    unfold HandleClusterPropagationPolicyCreationOrUpdate
    rw [hcleanRB]
    dsimp only
    rw [hcleanCRB]
    dsimp only
    rw [hderRB]
    dsimp only
    rw [hderCRB]
    dsimp only
    rw [hfanRB]
    dsimp only
    rw [hfanCRB]
    dsimp only
    have homb : (decide
          ((GetMatching env.fetchRT waiting policy.spec.resourceSelectors).length > 0) &&
        (match env.overridesPresent with
         | Except.error _ => true
         | Except.ok present => !present)) = true := by
      cases hov : env.overridesPresent with
      | error e => simp [List.length_pos.mpr hmk]
      | ok present =>
        have hp := hpres present hov
        subst hp
        simp [List.length_pos.mpr hmk]
    rw [if_pos homb]
  · exact enqueueDerivedKeys_derived

/-- Witness for C10 at a concrete input: one waiting key matches the
policy, the dependent overrides are reported absent, and the handler
leaves the waiting set untouched with no enqueue at all. -/
theorem overrides_missing_keeps_waiting_witness :
    HandlePropagationPolicyCreationOrUpdate samplePPUpdateEnvMissingOverrides
        [sampleCWK] samplePP
      = { result := Except.error "waiting for dependent overrides",
          waiting := [sampleCWK], enqueued := [] } :=
  overrides_missing_keeps_waiting.1 samplePPUpdateEnvMissingOverrides
    [sampleCWK] samplePP [] (by rfl) (by rfl) (by rfl) (by decide)
    (fun present h => by cases h; rfl)
